import Mathlib

/-!
Shallow embedding of the herald repository's Auth & Session core
(src/oauth/pkce.py, src/oauth/tokens.py, src/oauth/server.py,
src/oauth/users.py, src/oauth/dcr.py, src/mcp/server.py,
src/mcp/protocol.py, src/tools/registry.py, src/db/aurora.py)
and proofs about it.

Conventions of the embedding:
* Python strings are Lean `String`; byte strings are `List Nat`
  (each entry < 256 in real executions; definitions are total anyway).
* Machine integers do not occur; all arithmetic is on `Nat`/`Int`, with
  `% 4294967296` where the source's 32-bit overflow matters (SHA-256).
* `datetime.now(timezone.utc)` is an explicit `now : Nat` parameter
  (seconds); stored timestamps are `Nat` in the same clock.
* Randomness (`secrets.token_urlsafe`, `secrets.token_bytes`) is passed
  in as an explicit fresh value, so every function is deterministic.
* The relational store is explicit state: each table is a list of row
  structures, `INSERT` appends, `UPDATE ... WHERE` maps over the list and
  `query_one` is `List.find?` with the row filter of the SQL.
* `raise`/`try` become `Except`; an uncaught Python exception is the
  `.error` of the surrounding handler model.
* bcrypt hash checks (`bcrypt.checkpw`) are abstracted as a Boolean-valued
  function stored alongside the hashed record; JWT signing by `jose` is
  abstracted by letting an access token be represented by its payload.
-/

namespace Herald

/-- Accumulating worker for `splitSpaces`; `acc` holds the current word
reversed. -/
def splitSpacesAux : List Char → List Char → List String
  | [], acc => if acc.isEmpty then [] else [⟨acc.reverse⟩]
  | c :: rest, acc =>
    if c = ' ' then
      (if acc.isEmpty then splitSpacesAux rest []
       else (⟨acc.reverse⟩ : String) :: splitSpacesAux rest [])
    else splitSpacesAux rest (c :: acc)

/-- Python's `str.split()` restricted to space separators: split on runs
of spaces and drop empty pieces. Used for scope strings. -/
def splitSpaces (s : String) : List String :=
  splitSpacesAux s.data []

/-- ASCII-faithful `str.lower()`, character by character. -/
def strLower (s : String) : String :=
  ⟨s.data.map Char.toLower⟩

/-- Python's `" ".join(l)`. -/
def joinSpaces (l : List String) : String :=
  String.intercalate " " l

/-- Python truthiness for optional strings: `None` and `""` are falsy.
Models the pervasive `params.get("x")` / `if not x` idiom. -/
def pyGet (o : Option String) : Option String :=
  match o with
  | some "" => none
  | x => x

/-- Single-quote character, used to mirror Python `repr` of strings
without writing a quote character in source text. -/
def sq : String := String.singleton (Char.ofNat 39)

/-- Python `repr` of a list of strings, e.g. `['read', 'write']`,
as interpolated by the f-string in `_handle_tools_call`. -/
def pyListRepr (l : List String) : String :=
  "[" ++ String.intercalate ", " (l.map (fun s => sq ++ s ++ sq)) ++ "]"

/-- UTF-8 encoding of one scalar value, as `str.encode("utf-8")` does. -/
def utf8EncodeChar (c : Char) : List Nat :=
  let n := c.toNat
  if n < 128 then [n]
  else if n < 2048 then
    [192 ||| (n >>> 6), 128 ||| (n &&& 63)]
  else if n < 65536 then
    [224 ||| (n >>> 12), 128 ||| ((n >>> 6) &&& 63), 128 ||| (n &&& 63)]
  else
    [240 ||| (n >>> 18), 128 ||| ((n >>> 12) &&& 63),
     128 ||| ((n >>> 6) &&& 63), 128 ||| (n &&& 63)]

/-- UTF-8 encoding of a string (`s.encode("utf-8")`). -/
def utf8Bytes (s : String) : List Nat :=
  (s.data.map utf8EncodeChar).flatten

/-! SHA-256 (`hashlib.sha256`), on byte lists, 32-bit words as `Nat`
reduced mod 2^32. -/

/-- Modulus for 32-bit words. -/
def w32 : Nat := 4294967296

/-- Right rotation of a 32-bit word. -/
def rotr32 (x n : Nat) : Nat :=
  ((x >>> n) ||| (x <<< (32 - n))) % w32

/-- SHA-256 big sigma 0. -/
def bSig0 (x : Nat) : Nat := (rotr32 x 2) ^^^ (rotr32 x 13) ^^^ (rotr32 x 22)

/-- SHA-256 big sigma 1. -/
def bSig1 (x : Nat) : Nat := (rotr32 x 6) ^^^ (rotr32 x 11) ^^^ (rotr32 x 25)

/-- SHA-256 small sigma 0. -/
def sSig0 (x : Nat) : Nat := (rotr32 x 7) ^^^ (rotr32 x 18) ^^^ (x >>> 3)

/-- SHA-256 small sigma 1. -/
def sSig1 (x : Nat) : Nat := (rotr32 x 17) ^^^ (rotr32 x 19) ^^^ (x >>> 10)

/-- SHA-256 choice function. -/
def shaCh (x y z : Nat) : Nat := (x &&& y) ^^^ ((x ^^^ (w32 - 1)) &&& z)

/-- SHA-256 majority function. -/
def shaMaj (x y z : Nat) : Nat := (x &&& y) ^^^ (x &&& z) ^^^ (y &&& z)

/-- SHA-256 round constants (decimal). -/
def shaK : List Nat :=
  [1116352408, 1899447441, 3049323471, 3921009573, 961987163,
   1508970993, 2453635748, 2870763221, 3624381080, 310598401,
   607225278, 1426881987, 1925078388, 2162078206, 2614888103,
   3248222580, 3835390401, 4022224774, 264347078, 604807628,
   770255983, 1249150122, 1555081692, 1996064986, 2554220882,
   2821834349, 2952996808, 3210313671, 3336571891, 3584528711,
   113926993, 338241895, 666307205, 773529912, 1294757372,
   1396182291, 1695183700, 1986661051, 2177026350, 2456956037,
   2730485921, 2820302411, 3259730800, 3345764771, 3516065817,
   3600352804, 4094571909, 275423344, 430227734, 506948616,
   659060556, 883997877, 958139571, 1322822218, 1537002063,
   1747873779, 1955562222, 2024104815, 2227730452, 2361852424,
   2428436474, 2756734187, 3204031479, 3329325298]

/-- SHA-256 initial hash values (decimal). -/
def shaH0 : List Nat :=
  [1779033703, 3144134277, 1013904242, 2773480762,
   1359893119, 2600822924, 528734635, 1541459225]

/-- Message padding: append `0x80`, zeros, and the 64-bit big-endian bit
length so the total length is a multiple of 64 bytes. -/
def shaPad (msg : List Nat) : List Nat :=
  let len := msg.length
  let bitLen := 8 * len
  let zeros := (119 - (len % 64)) % 64
  msg ++ [128] ++ List.replicate zeros 0 ++
    [(bitLen >>> 56) % 256, (bitLen >>> 48) % 256, (bitLen >>> 40) % 256,
     (bitLen >>> 32) % 256, (bitLen >>> 24) % 256, (bitLen >>> 16) % 256,
     (bitLen >>> 8) % 256, bitLen % 256]

/-- Split a (padded) byte list into 64-byte chunks. -/
def shaChunks (bs : List Nat) : List (List Nat) :=
  (List.range (bs.length / 64)).map (fun i => ((bs.drop (64 * i)).take 64))

/-- First 16 schedule words of a 64-byte chunk, big-endian. -/
def shaWords16 (chunk : List Nat) : List Nat :=
  (List.range 16).map (fun i =>
    (chunk.getD (4 * i) 0) <<< 24 ||| (chunk.getD (4 * i + 1) 0) <<< 16 |||
    (chunk.getD (4 * i + 2) 0) <<< 8 ||| chunk.getD (4 * i + 3) 0)

/-- Extend the message schedule by one word. -/
def shaExtend (w : List Nat) : List Nat :=
  w ++ [(sSig1 (w.getD (w.length - 2) 0) + w.getD (w.length - 7) 0 +
         sSig0 (w.getD (w.length - 15) 0) + w.getD (w.length - 16) 0) % w32]

/-- Full 64-word message schedule of a chunk. -/
def shaSchedule (chunk : List Nat) : List Nat :=
  (List.range 48).foldl (fun w _ => shaExtend w) (shaWords16 chunk)

/-- One compression round; the state is the list `[a,b,c,d,e,f,g,h]`. -/
def shaRound (w : List Nat) (st : List Nat) (t : Nat) : List Nat :=
  let a := st.getD 0 0
  let b := st.getD 1 0
  let c := st.getD 2 0
  let d := st.getD 3 0
  let e := st.getD 4 0
  let f := st.getD 5 0
  let g := st.getD 6 0
  let h := st.getD 7 0
  let t1 := (h + bSig1 e + shaCh e f g + shaK.getD t 0 + w.getD t 0) % w32
  let t2 := (bSig0 a + shaMaj a b c) % w32
  [(t1 + t2) % w32, a, b, c, (d + t1) % w32, e, f, g]

/-- Compress one chunk into the running hash. -/
def shaCompress (hs : List Nat) (chunk : List Nat) : List Nat :=
  let w := shaSchedule chunk
  let st := (List.range 64).foldl (shaRound w) hs
  (List.range 8).map (fun i => (hs.getD i 0 + st.getD i 0) % w32)

/-- Serialize 32-bit words to bytes big-endian. -/
def wordsToBytes (ws : List Nat) : List Nat :=
  ws.flatMap (fun x => [(x >>> 24) % 256, (x >>> 16) % 256, (x >>> 8) % 256, x % 256])

/-- SHA-256 digest of a byte list, as 32 bytes. -/
def sha256 (msg : List Nat) : List Nat :=
  wordsToBytes ((shaChunks (shaPad msg)).foldl shaCompress shaH0)

/-- Lowercase hex digit for a 4-bit value (48 is the code of the zero
digit, 87 + 10 that of the letter a). -/
def hexDigit (n : Nat) : Char :=
  Char.ofNat (if n < 10 then 48 + n else 87 + n)

/-- Lowercase hex rendering of a byte list (`hashlib.sha256(..).hexdigest()`). -/
def hexOfBytes (bs : List Nat) : String :=
  ⟨bs.flatMap (fun b => [hexDigit ((b >>> 4) % 16), hexDigit (b % 16)])⟩

/-- Hex digest of the SHA-256 of a string's UTF-8 bytes:
`hashlib.sha256(token.encode()).hexdigest()`. -/
def sha256hex (s : String) : String :=
  hexOfBytes (sha256 (utf8Bytes s))

/-! Base64url (`base64.urlsafe_b64encode`), on byte lists. -/

/-- The URL-safe base64 alphabet. -/
def b64Alphabet : List Char :=
  ['A', 'B', 'C', 'D', 'E', 'F', 'G', 'H', 'I', 'J', 'K', 'L', 'M',
   'N', 'O', 'P', 'Q', 'R', 'S', 'T', 'U', 'V', 'W', 'X', 'Y', 'Z',
   'a', 'b', 'c', 'd', 'e', 'f', 'g', 'h', 'i', 'j', 'k', 'l', 'm',
   'n', 'o', 'p', 'q', 'r', 's', 't', 'u', 'v', 'w', 'x', 'y', 'z',
   '0', '1', '2', '3', '4', '5', '6', '7', '8', '9', '-', '_']

/-- Alphabet lookup for a 6-bit group. -/
def b64char (i : Nat) : Char := b64Alphabet.getD i 'A'

/-- URL-safe base64 encoding with `=` padding, three input bytes at a time. -/
def b64urlEncode : List Nat → List Char
  | b0 :: b1 :: b2 :: rest =>
      b64char (b0 >>> 2) :: b64char (((b0 &&& 3) <<< 4) ||| (b1 >>> 4)) ::
      b64char (((b1 &&& 15) <<< 2) ||| (b2 >>> 6)) :: b64char (b2 &&& 63) ::
      b64urlEncode rest
  | [b0, b1] =>
      [b64char (b0 >>> 2), b64char (((b0 &&& 3) <<< 4) ||| (b1 >>> 4)),
       b64char ((b1 &&& 15) <<< 2), '=']
  | [b0] => [b64char (b0 >>> 2), b64char ((b0 &&& 3) <<< 4), '=', '=']
  | [] => []

/-- Python's `str.rstrip("=")` on a character list. -/
def rstripEq (l : List Char) : List Char :=
  (l.reverse.dropWhile (fun c => c == '=')).reverse

/-- Unpadded URL-safe base64 of a byte list:
`base64.urlsafe_b64encode(bs).decode("utf-8").rstrip("=")`. -/
def urlsafeB64NoPad (bs : List Nat) : String :=
  ⟨rstripEq (b64urlEncode bs)⟩

/-! PKCE (src/oauth/pkce.py). -/

/-- Embeds `generate_code_verifier` of src/oauth/pkce.py. The source draws
`length` random bytes with `secrets.token_bytes(length)`; here the drawn
bytes are the explicit argument (so `randomBytes.length` is the `length`
argument of the source). -/
def generate_code_verifier (randomBytes : List Nat) : String :=
  ⟨(rstripEq (b64urlEncode randomBytes)).take 128⟩

/-- Embeds `generate_code_challenge` of src/oauth/pkce.py; the `ValueError`
for an unsupported method is the `.error` case. -/
def generate_code_challenge (verifier : String) (method : String) : Except String String :=
  if method = "plain" then .ok verifier
  else if method = "S256" then .ok (urlsafeB64NoPad (sha256 (utf8Bytes verifier)))
  else .error ("Unsupported code challenge method: " ++ method)

/-- Embeds `verify_code_challenge` of src/oauth/pkce.py;
`secrets.compare_digest` is modeled as string equality. -/
def verify_code_challenge (verifier challenge method : String) : Except String Bool :=
  (generate_code_challenge verifier method).map (fun expected => expected == challenge)

/-! Data model: rows of the relational store. -/

/-- Row of `users` (joined with `tenants` where the source does).
`passwordOk` abstracts `bcrypt.checkpw(password, stored_hash)`. -/
structure UserRecord where
  id : String
  tenant_id : String
  email : String
  scopes : List String
  is_active : Bool := true
  passwordOk : String → Bool
  last_login_at : Option Nat := none

/-- Row of `oauth_clients` (fields the grant handlers read).
`secretOk` abstracts `bcrypt.checkpw(secret, client_secret_hash)`. -/
structure ClientRecord where
  client_id : String
  client_secret_hash : Option String
  redirect_uris : List String
  is_active : Bool := true
  secretOk : String → Bool

/-- Row of `oauth_authorization_codes`. -/
structure AuthCodeRecord where
  code : String
  client_id : String
  user_id : String
  redirect_uri : String
  scope : String
  code_challenge : String
  code_challenge_method : String
  expires_at : Nat
  used_at : Option Nat
  deriving DecidableEq

/-- Row of `oauth_refresh_tokens`. -/
structure RefreshRecord where
  token_hash : String
  client_id : String
  user_id : String
  scope : String
  expires_at : Nat
  revoked_at : Option Nat
  deriving DecidableEq

/-- The OAuth server's slice of the store. -/
structure OAuthDb where
  users : List UserRecord
  clients : List ClientRecord
  authCodes : List AuthCodeRecord
  refreshTokens : List RefreshRecord

/-! Configuration constants (src/utils/config.py defaults). -/

/-- Access-token lifetime in minutes. -/
def access_token_expire_minutes : Nat := 60

/-- Refresh-token lifetime in days. -/
def refresh_token_expire_days : Nat := 30

/-- Authorization-code lifetime in minutes. -/
def authorization_code_expire_minutes : Nat := 10

/-! Credential issuer (src/oauth/tokens.py). -/

/-- Payload of a JWT access token. The `jose` signing step is abstracted:
an access token is represented by its (implicitly signed) payload. -/
structure AccessClaims where
  sub : String
  tenant_id : String
  scope : String
  client_id : String
  iat : Nat
  exp : Nat
  token_type : String
  deriving DecidableEq

/-- Embeds `create_access_token` (default `expires_delta`). -/
def create_access_token (user_id tenant_id : String) (scopes : List String)
    (client_id : String) (now : Nat) : AccessClaims :=
  { sub := user_id, tenant_id := tenant_id, scope := joinSpaces scopes,
    client_id := client_id, iat := now,
    exp := now + access_token_expire_minutes * 60, token_type := "access_token" }

/-- Embeds `verify_token`: signature checking is abstracted (payloads stand
for correctly signed tokens); expiry and the access-token discriminator are
checked as in the source. -/
def verify_token (tok : AccessClaims) (now : Nat) : Except String AccessClaims :=
  if tok.exp < now then .error "Signature has expired"
  else if tok.token_type ≠ "access_token" then .error "Invalid token type"
  else .ok tok

/-- Embeds `create_refresh_token` (default `expires_delta`): the opaque
random token drawn by `secrets.token_urlsafe(64)` is the explicit
`freshToken` argument; only its SHA-256 hex digest is stored. Returns
`(token, token_hash)` plus the updated store. -/
def create_refresh_token (db : OAuthDb) (now : Nat) (user_id tenant_id : String)
    (scopes : List String) (client_id : String) (freshToken : String) :
    String × String × OAuthDb :=
  let token_hash := sha256hex freshToken
  (freshToken, token_hash,
   { db with refreshTokens := db.refreshTokens ++
      [{ token_hash := token_hash, client_id := client_id, user_id := user_id,
         scope := joinSpaces scopes,
         expires_at := now + refresh_token_expire_days * 86400,
         revoked_at := none }] })

/-- Data returned by a successful refresh-token lookup. -/
structure RefreshData where
  user_id : String
  tenant_id : String
  scopes : List String
  client_id : String
  deriving DecidableEq

/-- Embeds `verify_refresh_token`: hash the presented secret and look up an
unrevoked, unexpired row (`expires_at > NOW() AND revoked_at IS NULL`),
joined with `users` for the tenant id. -/
def verify_refresh_token (db : OAuthDb) (now : Nat) (token : String) : Option RefreshData :=
  let h := sha256hex token
  match db.refreshTokens.find? (fun r =>
      r.token_hash == h && decide (now < r.expires_at) && r.revoked_at.isNone) with
  | none => none
  | some r =>
    match db.users.find? (fun u => u.id == r.user_id) with
    | none => none
    | some u =>
      some { user_id := r.user_id, tenant_id := u.tenant_id,
             scopes := splitSpaces r.scope, client_id := r.client_id }

/-- Embeds `revoke_refresh_token`: set `revoked_at = NOW()` on every row
with the presented token's hash. -/
def revoke_refresh_token (db : OAuthDb) (now : Nat) (token : String) : OAuthDb :=
  let h := sha256hex token
  { db with refreshTokens := db.refreshTokens.map (fun r =>
      if r.token_hash == h then { r with revoked_at := some now } else r) }

/-! Client registry (src/oauth/dcr.py, the parts the token endpoint uses). -/

/-- Embeds `get_client`. -/
def get_client (db : OAuthDb) (client_id : String) : Option ClientRecord :=
  db.clients.find? (fun c => c.client_id == client_id)

/-- Embeds `verify_client_secret`: false for a missing, inactive or public
client, else the bcrypt check. -/
def verify_client_secret (db : OAuthDb) (client_id client_secret : String) : Bool :=
  match get_client db client_id with
  | none => false
  | some c =>
    if !c.is_active then false
    else if c.client_secret_hash.isNone then false
    else c.secretOk client_secret

/-! User store (src/oauth/users.py, the parts the flows use). -/

/-- Embeds `authenticate_user`: find the user by email, require active and
a passing bcrypt check, update `last_login_at`. Returns the user (or none)
with the updated store. -/
def authenticate_user (db : OAuthDb) (now : Nat) (email password : String) :
    Option UserRecord × OAuthDb :=
  match db.users.find? (fun u => u.email == email) with
  | none => (none, db)
  | some u =>
    if !u.is_active then (none, db)
    else if !(u.passwordOk password) then (none, db)
    else (some u,
      { db with users := db.users.map (fun x =>
          if x.id == u.id then { x with last_login_at := some now } else x) })

/-- Embeds `get_user`. -/
def get_user (db : OAuthDb) (user_id : String) : Option UserRecord :=
  db.users.find? (fun u => u.id == user_id)

/-! Token endpoint (src/oauth/server.py). -/

/-- Wire-level outcome of the token endpoint: an OAuth error response
(`_error_response`) or a token response body. -/
inductive TokenResponse
  | err (statusCode : Nat) (error : String) (description : String)
  | tok (access_token : AccessClaims) (token_type : String) (expires_in : Nat)
        (refresh_token : String) (scope : String)
  deriving DecidableEq

/-- The confidential-client gate of both grant handlers: `if client and
client.get("client_secret_hash"): if not client_secret or not
verify_client_secret(...)` fails with `invalid_client`. True means the
request passes the gate. -/
def clientSecretGate (db : OAuthDb) (client_id : String) (client_secret : Option String) : Bool :=
  match get_client db client_id with
  | none => true
  | some c =>
    if c.client_secret_hash.isSome then
      match pyGet client_secret with
      | none => false
      | some s => verify_client_secret db client_id s
    else true

/-- Embeds `_handle_authorization_code_grant`. Randomness
(`secrets.token_urlsafe(64)` inside `create_refresh_token`) is the explicit
`freshRefresh` argument; `now` is the request's clock. The `ValueError`
raised by an unsupported PKCE method propagates to the module handler,
which maps it to a 400 `invalid_request` response. -/
def _handle_authorization_code_grant (db : OAuthDb) (now : Nat) (freshRefresh : String)
    (code redirect_uri code_verifier : Option String)
    (client_id : String) (client_secret : Option String) : TokenResponse × OAuthDb :=
  match pyGet code with
  | none => (.err 400 "invalid_request" "code is required", db)
  | some c =>
  match pyGet code_verifier with
  | none => (.err 400 "invalid_request" "code_verifier is required (PKCE)", db)
  | some v =>
  match db.authCodes.find? (fun r => r.code == c) with
  | none => (.err 400 "invalid_grant" "Invalid authorization code", db)
  | some r =>
  if r.expires_at < now then
    (.err 400 "invalid_grant" "Authorization code has expired", db)
  else if r.used_at.isSome then
    (.err 400 "invalid_grant" "Authorization code has already been used", db)
  else if r.client_id ≠ client_id then
    (.err 400 "invalid_grant" "Client ID mismatch", db)
  else if (match pyGet redirect_uri with
           | some u => r.redirect_uri != u
           | none => false) then
    (.err 400 "invalid_grant" "Redirect URI mismatch", db)
  else
    match verify_code_challenge v r.code_challenge r.code_challenge_method with
    | .error m => (.err 400 "invalid_request" m, db)
    | .ok false => (.err 400 "invalid_grant" "Invalid code_verifier", db)
    | .ok true =>
      if !(clientSecretGate db client_id client_secret) then
        (.err 401 "invalid_client" "Invalid client credentials", db)
      else
        let db1 := { db with authCodes := db.authCodes.map (fun x =>
          if x.code == c then { x with used_at := some now } else x) }
        match get_user db1 r.user_id with
        | none => (.err 400 "invalid_grant" "User not found", db1)
        | some u =>
          let scopes := splitSpaces r.scope
          let access := create_access_token u.id u.tenant_id scopes client_id now
          let rtd := create_refresh_token db1 now u.id u.tenant_id scopes client_id freshRefresh
          (.tok access "Bearer" (access_token_expire_minutes * 60) rtd.1 r.scope, rtd.2.2)

/-- Embeds `_handle_refresh_token_grant`; `freshRefresh` is the new random
refresh-token secret. -/
def _handle_refresh_token_grant (db : OAuthDb) (now : Nat) (freshRefresh : String)
    (refresh_token : Option String)
    (client_id : String) (client_secret : Option String) : TokenResponse × OAuthDb :=
  match pyGet refresh_token with
  | none => (.err 400 "invalid_request" "refresh_token is required", db)
  | some tokStr =>
  match verify_refresh_token db now tokStr with
  | none => (.err 400 "invalid_grant" "Invalid or expired refresh token", db)
  | some d =>
  if d.client_id ≠ client_id then
    (.err 400 "invalid_grant" "Client ID mismatch", db)
  else if !(clientSecretGate db client_id client_secret) then
    (.err 401 "invalid_client" "Invalid client credentials", db)
  else
    let db1 := revoke_refresh_token db now tokStr
    let access := create_access_token d.user_id d.tenant_id d.scopes client_id now
    let rtd := create_refresh_token db1 now d.user_id d.tenant_id d.scopes client_id freshRefresh
    (.tok access "Bearer" (access_token_expire_minutes * 60) rtd.1 (joinSpaces d.scopes), rtd.2.2)

/-! Authorize POST (src/oauth/server.py, `_handle_authorize_post`). -/

/-- Wire-level outcome of the authorize POST. -/
inductive AuthorizeResponse
  | badRequest (error description : String)
  | loginFormError (message : String)
  | redirect (location : String)
  deriving DecidableEq

/-- Embeds `_handle_authorize_post`. The body/query fallback chain and the
Python defaults (`scope` falling back to "read write", `state` to "",
`code_challenge_method` to "S256") are applied by the caller, so the OAuth
parameters arrive as plain strings here; `freshCode` is the
`secrets.token_urlsafe(32)` draw; URL encoding of the redirect is plain
concatenation (codes are URL-safe). -/
def _handle_authorize_post (db : OAuthDb) (now : Nat) (freshCode : String)
    (client_id redirect_uri scope state code_challenge code_challenge_method : String)
    (email password : Option String) : AuthorizeResponse × OAuthDb :=
  match pyGet email, pyGet password with
  | some em, some pw =>
    (match authenticate_user db now em pw with
     | (none, dbA) => (.loginFormError "Invalid email or password", dbA)
     | (some user, dbA) =>
       let requested_scopes := splitSpaces scope
       let user_scopes := user.scopes
       let granted0 := requested_scopes.filter (fun s => user_scopes.contains s)
       let granted := if granted0.isEmpty then ["read"] else granted0
       let newCode : AuthCodeRecord :=
         { code := freshCode, client_id := client_id, user_id := user.id,
           redirect_uri := redirect_uri, scope := joinSpaces granted,
           code_challenge := code_challenge,
           code_challenge_method := code_challenge_method,
           expires_at := now + authorization_code_expire_minutes * 60,
           used_at := none }
       let dbB := { dbA with authCodes := dbA.authCodes ++ [newCode] }
       let loc := redirect_uri ++ "?code=" ++ freshCode ++
         (if state ≠ "" then "&state=" ++ state else "")
       (.redirect loc, dbB))
  | _, _ => (.badRequest "invalid_request" "Email and password are required", db)

/-! MCP protocol layer (src/mcp/protocol.py, src/mcp/server.py). -/

/-- Session lifetime in hours (`SESSION_EXPIRY_HOURS`). -/
def SESSION_EXPIRY_HOURS : Nat := 24

/-- Row of `mcp_sessions`. -/
structure SessionRecord where
  session_id : String
  user_id : String
  tenant_id : String
  client_info : String
  capabilities : String
  expires_at : Nat
  last_activity_at : Option Nat
  deriving DecidableEq

/-- The MCP server's slice of the store. -/
structure McpDb where
  sessions : List SessionRecord
  deriving DecidableEq

/-- Claims the MCP server reads from a verified bearer token. -/
structure TokenClaims where
  sub : String
  tenant_id : String
  scope : String
  deriving DecidableEq

/-- An `McpError`: JSON-RPC error code and message. -/
structure McpErr where
  code : Int
  message : String
  deriving DecidableEq

/-- JSON-RPC standard error code. -/
def PARSE_ERROR : Int := -32700

/-- JSON-RPC standard error code. -/
def INVALID_REQUEST : Int := -32600

/-- JSON-RPC standard error code. -/
def METHOD_NOT_FOUND : Int := -32601

/-- JSON-RPC standard error code. -/
def INVALID_PARAMS : Int := -32602

/-- JSON-RPC standard error code. -/
def INTERNAL_ERROR : Int := -32603

/-- MCP-specific error code. -/
def MCP_NOT_INITIALIZED : Int := -32000

/-- MCP-specific error code. -/
def MCP_ALREADY_INITIALIZED : Int := -32001

/-- MCP-specific error code. -/
def MCP_INVALID_SESSION : Int := -32002

/-- Embeds `_validate_session`: `NotInitialized` when no (truthy) session
id is presented; `InvalidSession` when the row is absent or expired
(`expires_at > NOW()` filter) or bound to another user; on success the
activity timestamp is refreshed and the session returned. -/
def _validate_session (db : McpDb) (now : Nat) (session_id : Option String)
    (claims : TokenClaims) : Except McpErr (SessionRecord × McpDb) :=
  match pyGet session_id with
  | none => .error ⟨MCP_NOT_INITIALIZED, "Session not initialized. Call initialize first."⟩
  | some sid =>
  match db.sessions.find? (fun s => s.session_id == sid && decide (now < s.expires_at)) with
  | none => .error ⟨MCP_INVALID_SESSION, "Invalid or expired session"⟩
  | some s =>
    if s.user_id ≠ claims.sub then
      .error ⟨MCP_INVALID_SESSION, "Session does not belong to this user"⟩
    else
      .ok (s, { db with sessions := db.sessions.map (fun x =>
        if x.session_id == sid then { x with last_activity_at := some now } else x) })

/-- Tool arguments, an opaque string-keyed dict. -/
abbrev ToolArgs := List (String × String)

/-- Entry of `TOOLS_REGISTRY` (src/tools/registry.py): description and
declared scope, with the external S3 collaborator abstracted as `run`
(arguments, tenant id, user id; `.error` models a raised exception). -/
structure Tool where
  description : String
  required_scope : Option String
  run : ToolArgs → String → String → Except String String

/-- Method parameters of a JSON-RPC request, with the fields the handlers
read. -/
structure RpcParams where
  name : Option String := none
  arguments : ToolArgs := []
  clientInfo : String := ""
  capabilities : String := ""

/-- JSON-RPC request id (`str | int`). -/
inductive RpcId
  | n (v : Nat)
  | s (v : String)
  deriving DecidableEq

/-- A parsed `JsonRpcRequest`. -/
structure RpcRequest where
  method : String
  params : RpcParams
  id : Option RpcId

/-- Result payload of a successful method call. -/
inductive RpcResult
  | emptyObj
  | initResult
  | toolsList (ts : List (String × String))
  | toolOut (content : String)
  deriving DecidableEq

/-- Embeds `_handle_tools_list` / `create_tools_list` (names and
descriptions; the static input schemas are omitted). -/
def _handle_tools_list (registry : List (String × Tool)) : RpcResult :=
  .toolsList (registry.map (fun p => (p.1, p.2.description)))

/-- Embeds `_handle_tools_call`: resolve the tool, require its declared
scope (default "read") or `admin` among the token's scopes, then delegate
to the collaborator, converting a raised exception to `InternalError`. -/
def _handle_tools_call (registry : List (String × Tool)) (params : RpcParams)
    (claims : TokenClaims) : Except McpErr RpcResult :=
  match pyGet params.name with
  | none => .error ⟨INVALID_REQUEST, "Missing tool name"⟩
  | some tool_name =>
  match registry.find? (fun p => p.1 == tool_name) with
  | none => .error ⟨METHOD_NOT_FOUND, "Tool not found: " ++ tool_name⟩
  | some pr =>
    let required_scope := pr.2.required_scope.getD "read"
    let user_scopes := splitSpaces claims.scope
    if !(user_scopes.contains required_scope) && !(user_scopes.contains "admin") then
      .error ⟨INVALID_REQUEST,
        "Insufficient scope. Required: " ++ required_scope ++ ", has: " ++ pyListRepr user_scopes⟩
    else
      match pr.2.run params.arguments claims.tenant_id claims.sub with
      | .ok r => .ok (.toolOut r)
      | .error e => .error ⟨INTERNAL_ERROR, "Tool execution failed: " ++ e⟩

/-- Embeds `_handle_init_method`: always creates a brand-new session with a
fixed 24-hour TTL; `freshSession` is the `secrets.token_urlsafe(32)` draw.
Returns `(result, new session id)` and the updated store. -/
def _handle_init_method (db : McpDb) (now : Nat) (freshSession : String)
    (params : RpcParams) (claims : TokenClaims) : (RpcResult × Option String) × McpDb :=
  let s : SessionRecord :=
    { session_id := freshSession, user_id := claims.sub, tenant_id := claims.tenant_id,
      client_info := params.clientInfo, capabilities := params.capabilities,
      expires_at := now + SESSION_EXPIRY_HOURS * 3600, last_activity_at := none }
  ((.initResult, some freshSession), { db with sessions := db.sessions ++ [s] })

/-- Embeds `_handle_method`: `initialize` bypasses session validation,
`notifications/initialized` validates the session and returns `{}`,
`notifications/cancelled` returns `{}` unconditionally, every other method
first validates the session; mutations that happened before a raise
persist in the returned store. -/
def _handle_method (registry : List (String × Tool)) (db : McpDb) (now : Nat)
    (freshSession : String) (request : RpcRequest) (session_id : Option String)
    (claims : TokenClaims) : Except McpErr (RpcResult × Option String) × McpDb :=
  if request.method = "initialize" then
    let r := _handle_init_method db now freshSession request.params claims
    (.ok r.1, r.2)
  else if request.method = "notifications/initialized" then
    match _validate_session db now session_id claims with
    | .error e => (.error e, db)
    | .ok (_, dbA) => (.ok (.emptyObj, none), dbA)
  else if request.method = "notifications/cancelled" then
    (.ok (.emptyObj, none), db)
  else
    match _validate_session db now session_id claims with
    | .error e => (.error e, db)
    | .ok (_, dbA) =>
      if request.method = "tools/list" then
        (.ok (_handle_tools_list registry, none), dbA)
      else if request.method = "tools/call" then
        match _handle_tools_call registry request.params claims with
        | .ok r => (.ok (r, none), dbA)
        | .error e => (.error e, dbA)
      else if request.method = "ping" then
        (.ok (.emptyObj, none), dbA)
      else
        (.error ⟨METHOD_NOT_FOUND, "Method not found: " ++ request.method⟩, dbA)

/-- Embeds `get_token_claims` (src/oauth/tokens.py) for the MCP handler:
header-format parsing around the abstract `jose` verification `verifyTok`
(which maps a raw bearer string to claims or a failure). -/
def get_token_claims (verifyTok : String → Except String TokenClaims)
    (authorization_header : String) : Except String TokenClaims :=
  if authorization_header = "" then .error "Missing Authorization header"
  else
    let parts := splitSpaces authorization_header
    if parts.length != 2 || strLower (parts.getD 0 "") != "bearer" then
      .error "Invalid Authorization header format"
    else verifyTok (parts.getD 1 "")

/-- HTTP body of an MCP transport response. -/
inductive HttpBody
  | empty
  | jsonrpcOk (id : Option RpcId) (result : RpcResult)
  | jsonrpcErr (id : Option RpcId) (code : Int) (message : String)
  | authErr (message : String)
  deriving DecidableEq

/-- HTTP response of the MCP transport. -/
structure HttpResponse where
  statusCode : Nat
  headers : List (String × String)
  body : HttpBody
  deriving DecidableEq

/-- Embeds `_jsonrpc_error`: JSON-RPC errors still return HTTP 200. -/
def _jsonrpc_error (id : Option RpcId) (e : McpErr) : HttpResponse :=
  { statusCode := 200, headers := [("Content-Type", "application/json")],
    body := .jsonrpcErr id e.code e.message }

/-- Embeds `_auth_error_response`: 401 with a `WWW-Authenticate` header
pointing at the protected-resource metadata URL (RFC 9728). -/
def _auth_error_response (issuer : String) (message : String) : HttpResponse :=
  { statusCode := 401,
    headers := [("Content-Type", "application/json"),
      ("WWW-Authenticate",
       "Bearer resource_metadata=\"" ++ issuer ++ "/.well-known/oauth-protected-resource\"")],
    body := .authErr message }

/-- Parsed form of the POST body: a JSON decoding failure, or the decoded
dict's fields as read by `JsonRpcRequest.from_dict` (an absent body parses
to the empty dict: all fields `none`). -/
inductive RawBody
  | badJson (msg : String)
  | parsed (jsonrpc : Option String) (method : Option String) (id : Option RpcId)
           (params : RpcParams)

/-- Embeds `JsonRpcRequest.from_dict`. -/
def jsonRpcRequestFromDict (jsonrpc method : Option String) (id : Option RpcId)
    (params : RpcParams) : Except McpErr RpcRequest :=
  if jsonrpc ≠ some "2.0" then .error ⟨INVALID_REQUEST, "Invalid JSON-RPC version"⟩
  else
    match pyGet method with
    | none => .error ⟨INVALID_REQUEST, "Missing method"⟩
    | some m => .ok { method := m, params := params, id := id }

/-- The body-handling tail of `_handle_post`, reached once the bearer token
has verified to `claims`: parse the JSON-RPC request, dispatch, and shape
the HTTP response (200 for results and for JSON-RPC errors, 202 with empty
body for notification successes; a fresh session id is echoed in the
`Mcp-Session-Id` header). -/
def _dispatch_rpc (registry : List (String × Tool)) (db : McpDb) (now : Nat)
    (freshSession : String) (session_id : Option String) (claims : TokenClaims) :
    RawBody → HttpResponse × McpDb
  | .badJson m => (_jsonrpc_error none ⟨PARSE_ERROR, "Invalid JSON: " ++ m⟩, db)
  | .parsed jsonrpc method id params =>
    match jsonRpcRequestFromDict jsonrpc method id params with
    | .error e => (_jsonrpc_error id e, db)
    | .ok request =>
      match _handle_method registry db now freshSession request session_id claims with
      | (.error e, dbA) => (_jsonrpc_error request.id e, dbA)
      | (.ok (result, newSid), dbA) =>
        let hdrs := [("Content-Type", "application/json")] ++
          (match newSid with | some s => [("Mcp-Session-Id", s)] | none => [])
        if request.id.isNone then
          ({ statusCode := 202, headers := hdrs, body := .empty }, dbA)
        else
          ({ statusCode := 200, headers := hdrs, body := .jsonrpcOk request.id result }, dbA)

/-- Embeds `_handle_post`: authenticate the bearer token (401 with the
RFC 9728 challenge on failure), then hand the body to `_dispatch_rpc`. -/
def _handle_post (registry : List (String × Tool))
    (verifyTok : String → Except String TokenClaims) (issuer : String)
    (db : McpDb) (now : Nat) (freshSession : String)
    (auth_header : Option String) (session_id : Option String)
    (body : RawBody) : HttpResponse × McpDb :=
  match pyGet auth_header with
  | none => (_auth_error_response issuer "Missing Authorization header", db)
  | some h =>
  match get_token_claims verifyTok h with
  | .error e => (_auth_error_response issuer ("Invalid token: " ++ e), db)
  | .ok claims => _dispatch_rpc registry db now freshSession session_id claims body

/-- Declared required scopes of `TOOLS_REGISTRY` (src/tools/registry.py). -/
def heraldToolScopes : List (String × String) :=
  [("list_buckets", "read"), ("publish_file", "write"),
   ("get_presigned_url", "write"), ("list_files", "read"),
   ("delete_file", "delete")]

/-- The herald registry with the source's names and required scopes; the
descriptions and the external S3 handlers are supplied by the caller. -/
def heraldRegistry (run : String → ToolArgs → String → String → Except String String) :
    List (String × Tool) :=
  heraldToolScopes.map (fun p =>
    (p.1, { description := p.1, required_scope := some p.2, run := run p.1 }))

/-! Store adapter and conflict translation (src/db/aurora.py,
src/admin/platform.py, src/oauth/users.py `create_tenant`,
src/oauth/server.py handler wrapper). -/

/-- Exceptions relevant to the store paths: `ValueError` raised by domain
validation, and botocore's `ClientError` raised by the Data API. -/
inductive PyExc
  | valueErr (msg : String)
  | clientErr (msg : String)
  deriving DecidableEq

/-- Python `str(e)` of those exceptions. -/
def pyExcStr : PyExc → String
  | .valueErr m => m
  | .clientErr m => m

/-- Result rows of a Data API call. -/
abbrev Row := List (String × String)

/-- Embeds `AuroraClient.execute`: the store's reply is the argument (an
`.error` is a raised `ClientError`); the method catches `ClientError`,
logs, and re-raises it unchanged — no translation happens here. -/
def aurora_execute (reply : Except String (List Row)) : Except PyExc (List Row) :=
  match reply with
  | .ok rows => .ok rows
  | .error m => .error (.clientErr m)

/-- Prefix test on character lists. -/
def headMatches (xs ys : List Char) : Bool :=
  match xs, ys with
  | [], _ => true
  | a :: as, b :: bs => a == b && headMatches as bs
  | _, _ => false

/-- Substring test on character lists. -/
def hasSub (needle : List Char) : List Char → Bool
  | [] => headMatches needle []
  | c :: rest => headMatches needle (c :: rest) || hasSub needle rest

/-- Python's `needle in hay` on strings. -/
def strContains (hay needle : String) : Bool :=
  hasSub needle.data hay.data

/-- Outcome of an admin endpoint: an HTTP response, or an uncaught
re-raised exception. -/
inductive AdminOutcome
  | resp (statusCode : Nat) (message : String)
  | raised (e : PyExc)
  deriving DecidableEq

/-- Embeds `_create_tenant` of src/admin/platform.py: two inserts inside a
`try` whose `except` translates any exception whose text contains
"duplicate key" (case-insensitively) into a 409, and re-raises the rest.
The store's replies to the two inserts are the arguments. -/
def admin_create_tenant (tenantInsert userInsert : Except String (List Row)) : AdminOutcome :=
  match aurora_execute tenantInsert with
  | .error e =>
    if strContains (strLower (pyExcStr e)) "duplicate key" then
      .resp 409 "Tenant with this slug or email already exists"
    else .raised e
  | .ok _ =>
    match aurora_execute userInsert with
    | .error e =>
      if strContains (strLower (pyExcStr e)) "duplicate key" then
        .resp 409 "Tenant with this slug or email already exists"
      else .raised e
    | .ok _ => .resp 201 "Tenant created"

/-- Row of `tenants`. -/
structure TenantRow where
  id : String
  name : String
  slug : String
  email : String
  deriving DecidableEq

/-- Embeds `create_tenant` of src/oauth/users.py: validate, pre-check the
slug (a duplicate raises `ValueError`), then insert. The generated slug is
the explicit `slug` argument and the store's reply to the `INSERT` is
`insertReply` (an `.error` is the `ClientError` of a constraint violation,
re-raised raw by `AuroraClient.execute`). -/
def create_tenant (tenants : List TenantRow) (insertReply : Except String TenantRow)
    (name email slug : String) : Except PyExc (TenantRow × List TenantRow) :=
  if name = "" then .error (.valueErr "name is required")
  else if email = "" then .error (.valueErr "email is required")
  else
    match tenants.find? (fun t => t.slug == slug) with
    | some _ =>
      .error (.valueErr ("Tenant with slug " ++ sq ++ slug ++ sq ++ " already exists"))
    | none =>
      match insertReply with
      | .error m => .error (.clientErr m)
      | .ok row => .ok (row, tenants ++ [row])

/-- Embeds the exception mapping of the OAuth module handler
(src/oauth/server.py lines 147-152): `ValueError` becomes a 400
`invalid_request` response, any other exception a 500 `server_error`. -/
def oauth_handler_wrap (r : Except PyExc (Nat × String)) : Nat × String :=
  match r with
  | .ok v => v
  | .error (.valueErr _) => (400, "invalid_request")
  | .error (.clientErr _) => (500, "server_error")

/-- Surface of the `/signup` endpoint restricted to the tenant-creation
step: the handler wrapper applied to `create_tenant`. -/
def handle_signup_tenant (tenants : List TenantRow) (insertReply : Except String TenantRow)
    (name email slug : String) : Nat × String :=
  oauth_handler_wrap ((create_tenant tenants insertReply name email slug).map
    (fun _ => (201, "created")))

/-! Concrete fixtures used by witness instantiations. -/

/-- Fixture user entitled to the single scope `write`. -/
def wUser : UserRecord :=
  { id := "u1", tenant_id := "t1", email := "bob@x.io", scopes := ["write"],
    is_active := true, passwordOk := fun p => p == "pw123", last_login_at := none }

/-- Fixture OAuth store holding only `wUser`. -/
def wDb : OAuthDb :=
  { users := [wUser], clients := [], authCodes := [], refreshTokens := [] }

/-- The fixture user after a login updates `last_login_at`. -/
def wUserAfter : UserRecord := { wUser with last_login_at := some 7 }

/-- The fixture store after the login. -/
def wDbAfter : OAuthDb := { wDb with users := [wUserAfter] }

/-- Fixture MCP store with no sessions. -/
def wMcpDb : McpDb := { sessions := [] }

/-- Fixture claims for user A. -/
def wClaimsA : TokenClaims := { sub := "userA", tenant_id := "t1", scope := "read" }

/-- Fixture claims for user B. -/
def wClaimsB : TokenClaims := { sub := "userB", tenant_id := "t1", scope := "read" }

/-- Fixture tool collaborator that always succeeds. -/
def wRun : String → ToolArgs → String → String → Except String String :=
  fun _ _ _ _ => .ok "done"

/-- The herald registry instantiated with the fixture collaborator. -/
def wRegistry : List (String × Tool) := heraldRegistry wRun

/-- The `publish_file` entry of the fixture registry. -/
def wPub : String × Tool :=
  ("publish_file",
   { description := "publish_file", required_scope := some "write",
     run := wRun "publish_file" })

/-- Fixture `tools/call` parameters naming `publish_file`. -/
def wParamsPub : RpcParams := { name := some "publish_file" }

/-- Fixture claims carrying only the `read` scope. -/
def wClaimsRead : TokenClaims := { sub := "u1", tenant_id := "t1", scope := "read" }

/-- Fixture claims carrying only the `write` scope. -/
def wClaimsWrite : TokenClaims := { sub := "u1", tenant_id := "t1", scope := "write" }

/-- Fixture `ping` request. -/
def wReqPing : RpcRequest := { method := "ping", params := {}, id := none }

/-- Fixture `notifications/initialized` notification. -/
def wReqNotifInit : RpcRequest :=
  { method := "notifications/initialized", params := {}, id := none }

/-- Fixture `notifications/cancelled` notification. -/
def wReqNotifCancel : RpcRequest :=
  { method := "notifications/cancelled", params := {}, id := none }

/-- Fixture `initialize` request. -/
def wReqInit : RpcRequest := { method := "initialize", params := {}, id := none }

/-- Fixture bearer verifier accepting every token as user A. -/
def wVerifyOk : String → Except String TokenClaims := fun _ => .ok wClaimsA

/-- Fixture bearer verifier rejecting every token. -/
def wVerifyBad : String → Except String TokenClaims :=
  fun _ => .error "Signature has expired"

/-- Fixture parsed body: a `notifications/cancelled` notification. -/
def wBodyNotifCancel : RawBody :=
  .parsed (some "2.0") (some "notifications/cancelled") none {}

/-! Helper lemmas. -/

/-- Python truthiness: a non-empty optional string passes through. -/
theorem pyGet_some {s : String} (h : s ≠ "") : pyGet (some s) = some s := by
  unfold pyGet
  split
  · simp_all
  · rfl

/-- Marking an authorization code used commutes with looking the code up. -/
theorem find?_mark_used (l : List AuthCodeRecord) (c : String) (now : Nat) :
    (l.map (fun x => if x.code == c then { x with used_at := some now } else x)).find?
        (fun x => x.code == c)
      = (l.find? (fun x => x.code == c)).map
          (fun x => { x with used_at := some now }) := by
  induction l with
  | nil => rfl
  | cons a t ih =>
    by_cases h : (a.code == c) = true
    · simp only [List.map_cons, if_pos h]
      have hm : (({ a with used_at := some now } : AuthCodeRecord).code == c) = true := h
      rw [List.find?_cons_of_pos (p := fun x : AuthCodeRecord => x.code == c) _ hm,
          List.find?_cons_of_pos (p := fun x : AuthCodeRecord => x.code == c) _ h]
      rfl
    · simp only [List.map_cons, if_neg h]
      rw [List.find?_cons_of_neg (p := fun x : AuthCodeRecord => x.code == c) _ h,
          List.find?_cons_of_neg (p := fun x : AuthCodeRecord => x.code == c) _ h]
      exact ih

/-- Dropping a satisfying block continues past an append. -/
theorem dropWhile_append_all {α} (p : α → Bool) (l1 l2 : List α)
    (h : ∀ x ∈ l1, p x = true) :
    (l1 ++ l2).dropWhile p = l2.dropWhile p := by
  induction l1 with
  | nil => rfl
  | cons a t ih =>
    have ha := h a (List.mem_cons_self a t)
    simp [List.dropWhile, ha]
    exact ih (fun x hx => h x (List.mem_cons_of_mem a hx))

/-- Every base64url character produced by `b64char` is in the alphabet. -/
theorem b64char_mem (i : Nat) : b64char i ∈ b64Alphabet := by
  unfold b64char
  rcases Nat.lt_or_ge i 64 with h | h
  · exact (by decide : ∀ j < 64, b64Alphabet.getD j 'A' ∈ b64Alphabet) i h
  · rw [List.getD_eq_default]
    · decide
    · simpa using h

/-- The padding character is not in the base64url alphabet. -/
theorem eq_pad_not_mem {c : Char} (h : c ∈ b64Alphabet) : (c == '=') = false := by
  rw [beq_eq_false_iff_ne]
  intro hc
  subst hc
  revert h
  decide

/-- Structure of the padded encoder output: an alphabet body followed by
`=` padding, with the body length determined by the byte count. -/
theorem b64urlEncode_decomp (bs : List Nat) :
    ∃ body pads, b64urlEncode bs = body ++ pads ∧
      body.length = (4 * bs.length + 2) / 3 ∧
      (∀ c ∈ body, c ∈ b64Alphabet) ∧ (∀ c ∈ pads, c = '=') := by
  induction bs using b64urlEncode.induct with
  | case1 b0 b1 b2 rest ih =>
    obtain ⟨body, pads, henc, hlen, hmem, hpad⟩ := ih
    refine ⟨b64char (b0 >>> 2) :: b64char (((b0 &&& 3) <<< 4) ||| (b1 >>> 4)) ::
      b64char (((b1 &&& 15) <<< 2) ||| (b2 >>> 6)) :: b64char (b2 &&& 63) :: body, pads, ?_, ?_, ?_, hpad⟩
    · simp [b64urlEncode, henc]
    · simp only [List.length_cons, hlen, List.length_cons]
      omega
    · intro c hc
      simp only [List.mem_cons] at hc
      rcases hc with h | h | h | h | h
      all_goals first
        | (subst h; exact b64char_mem _)
        | exact hmem c h
  | case2 b0 b1 =>
    refine ⟨[b64char (b0 >>> 2), b64char (((b0 &&& 3) <<< 4) ||| (b1 >>> 4)),
      b64char ((b1 &&& 15) <<< 2)], ['='], rfl, by simp, ?_, by simp⟩
    intro c hc
    simp only [List.mem_cons, List.not_mem_nil, or_false] at hc
    rcases hc with h | h | h <;> (subst h; exact b64char_mem _)
  | case3 b0 =>
    refine ⟨[b64char (b0 >>> 2), b64char ((b0 &&& 3) <<< 4)], ['=', '='], rfl, by simp, ?_, by simp⟩
    intro c hc
    simp only [List.mem_cons, List.not_mem_nil, or_false] at hc
    rcases hc with h | h <;> (subst h; exact b64char_mem _)
  | case4 => exact ⟨[], [], rfl, rfl, by simp, by simp⟩

/-- Stripping the `=` padding recovers exactly the body. -/
theorem rstripEq_body_pads (body pads : List Char)
    (hb : ∀ c ∈ body, c ∈ b64Alphabet) (hp : ∀ c ∈ pads, c = '=') :
    rstripEq (body ++ pads) = body := by
  unfold rstripEq
  rw [List.reverse_append]
  rw [dropWhile_append_all _ pads.reverse body.reverse]
  · cases hrev : body.reverse with
    | nil =>
      simp only [List.dropWhile_nil]
      have : body = [] := by simpa using congrArg List.reverse hrev
      simp [this]
    | cons c t =>
      have hcmem : c ∈ body := by
        have : c ∈ body.reverse := by rw [hrev]; exact List.mem_cons_self c t
        simpa using this
      rw [List.dropWhile_cons, eq_pad_not_mem (hb c hcmem)]
      simp only [Bool.false_eq_true, if_false]
      rw [← hrev, List.reverse_reverse]
  · intro x hx
    have : x ∈ pads := by simpa using hx
    rw [hp x this]
    rfl

/-- Lookup skips a block with no match. -/
theorem find?_append_right {α} (p : α → Bool) (l1 l2 : List α)
    (h : l1.find? p = none) : (l1 ++ l2).find? p = l2.find? p := by
  induction l1 with
  | nil => rfl
  | cons a t ih =>
    rw [List.find?_eq_none] at h
    have ha : ¬ p a = true := h a (List.mem_cons_self a t)
    rw [List.cons_append, List.find?_cons_of_neg _ ha]
    apply ih
    rw [List.find?_eq_none]
    intro x hx
    exact h x (List.mem_cons_of_mem a hx)

/-! Claim theorems. -/

/-- C7: for every verifier `v` and method `m` in {S256, plain}, verifying
the challenge derived from `v` by `m` succeeds, and verifying any other
challenge string fails. -/
theorem pkce_roundtrip (v m c ch : String)
    (hm : m = "S256" ∨ m = "plain")
    (hch : generate_code_challenge v m = .ok ch) :
    verify_code_challenge v ch m = .ok true ∧
      (c ≠ ch → verify_code_challenge v c m = .ok false) := by
  refine ⟨?_, fun hne => ?_⟩
  · unfold verify_code_challenge
    rw [hch]
    simp [Except.map]
  · unfold verify_code_challenge
    rw [hch]
    simp only [Except.map]
    simp [beq_eq_false_iff_ne]
    exact Ne.symm hne

/-- Witness for C7 at a concrete verifier, method and tampered challenge. -/
theorem pkce_roundtrip_witness :
    (("plain" : String) = "S256" ∨ ("plain" : String) = "plain") ∧
    generate_code_challenge "abc" "plain" = .ok "abc" ∧
    (verify_code_challenge "abc" "abc" "plain" = .ok true ∧
      ("xyz" ≠ "abc" → verify_code_challenge "abc" "xyz" "plain" = .ok false)) :=
  ⟨Or.inr rfl, rfl, pkce_roundtrip "abc" "plain" "xyz" "abc" (Or.inr rfl) rfl⟩

/-- C3: on successful authentication in the authorize POST, the stored
authorization code's scope is the intersection of the requested scopes
with the user's entitled scopes — every granted scope in that case is both
requested and held by the user — falling back to the single scope `read`
when the intersection is empty. -/
theorem authorize_scope_intersection
    (db : OAuthDb) (now : Nat)
    (freshCode client_id redirect_uri scope state ch chm em pw : String)
    (user : UserRecord) (dbA : OAuthDb)
    (hem : em ≠ "") (hpw : pw ≠ "")
    (hauth : authenticate_user db now em pw = (some user, dbA)) :
    (_handle_authorize_post db now freshCode client_id redirect_uri scope state ch chm
        (some em) (some pw)).2.authCodes =
      dbA.authCodes ++
        [{ code := freshCode, client_id := client_id, user_id := user.id,
           redirect_uri := redirect_uri,
           scope := joinSpaces (if (splitSpaces scope).inter user.scopes = []
                                then ["read"] else (splitSpaces scope).inter user.scopes),
           code_challenge := ch, code_challenge_method := chm,
           expires_at := now + authorization_code_expire_minutes * 60,
           used_at := none }] ∧
    (∀ s ∈ (splitSpaces scope).inter user.scopes, s ∈ splitSpaces scope ∧ s ∈ user.scopes) := by
  constructor
  · simp only [_handle_authorize_post, pyGet_some hem, pyGet_some hpw, hauth]
    have hg : (splitSpaces scope).filter (fun s => user.scopes.contains s) =
        (splitSpaces scope).inter user.scopes := rfl
    simp only [hg, List.isEmpty_iff]
  · intro s hs
    have hs' : s ∈ (splitSpaces scope).filter (fun x => user.scopes.contains x) := hs
    rw [List.mem_filter] at hs'
    refine ⟨hs'.1, ?_⟩
    have := hs'.2
    simpa using this

/-- Witness for C3: requested "read write admin" against a user entitled to
["write"] grants exactly ["write"]. -/
theorem authorize_scope_intersection_witness :
    ("bob@x.io" : String) ≠ "" ∧ ("pw123" : String) ≠ "" ∧
    authenticate_user wDb 7 "bob@x.io" "pw123" = (some wUser, wDbAfter) ∧
    ((_handle_authorize_post wDb 7 "code1" "cl1" "https://app.example/cb"
        "read write admin" "st" "chal" "plain"
        (some "bob@x.io") (some "pw123")).2.authCodes =
      wDbAfter.authCodes ++
        [{ code := "code1", client_id := "cl1", user_id := wUser.id,
           redirect_uri := "https://app.example/cb",
           scope := joinSpaces (if (splitSpaces "read write admin").inter
                  wUser.scopes = []
                then ["read"]
                else (splitSpaces "read write admin").inter wUser.scopes),
           code_challenge := "chal", code_challenge_method := "plain",
           expires_at := 7 + authorization_code_expire_minutes * 60,
           used_at := none }] ∧
      (∀ s ∈ (splitSpaces "read write admin").inter wUser.scopes,
        s ∈ splitSpaces "read write admin" ∧ s ∈ wUser.scopes)) :=
  ⟨by decide, by decide, by rfl,
   authorize_scope_intersection wDb 7 "code1" "cl1" "https://app.example/cb"
     "read write admin" "st" "chal" "plain" "bob@x.io" "pw123" wUser wDbAfter
     (by decide) (by decide) (by rfl)⟩

/-- C4: a session whose bound user differs from the verified token's
subject is rejected with `InvalidSession`, both for any stored session
found by validation and in the end-to-end scenario where user A's
`initialize` session is presented with user B's token. -/
theorem session_user_binding :
    (∀ (db : McpDb) (now : Nat) (sid : String) (claims : TokenClaims) (s : SessionRecord),
      sid ≠ "" →
      db.sessions.find? (fun x => x.session_id == sid && decide (now < x.expires_at)) = some s →
      s.user_id ≠ claims.sub →
      _validate_session db now (some sid) claims =
        .error ⟨MCP_INVALID_SESSION, "Session does not belong to this user"⟩) ∧
    (∀ (db : McpDb) (now : Nat) (fresh : String) (params : RpcParams)
       (claimsA claimsB : TokenClaims),
      fresh ≠ "" →
      (∀ r ∈ db.sessions, r.session_id ≠ fresh) →
      claimsB.sub ≠ claimsA.sub →
      _validate_session (_handle_init_method db now fresh params claimsA).2 now
          (some fresh) claimsB =
        .error ⟨MCP_INVALID_SESSION, "Session does not belong to this user"⟩) := by
  constructor
  · intro db now sid claims s hsid hfind hmis
    unfold _validate_session
    rw [pyGet_some hsid]
    simp only [hfind]
    rw [if_pos hmis]
  · intro db now fresh params claimsA claimsB hf hnone hmis
    have h1 : db.sessions.find?
        (fun x => x.session_id == fresh && decide (now < x.expires_at)) = none := by
      rw [List.find?_eq_none]
      intro x hx hpx
      rw [Bool.and_eq_true] at hpx
      exact hnone x hx (by simpa using hpx.1)
    have h2 : (_handle_init_method db now fresh params claimsA).2.sessions.find?
        (fun x => x.session_id == fresh && decide (now < x.expires_at)) =
        some { session_id := fresh, user_id := claimsA.sub,
               tenant_id := claimsA.tenant_id, client_info := params.clientInfo,
               capabilities := params.capabilities,
               expires_at := now + SESSION_EXPIRY_HOURS * 3600,
               last_activity_at := none } := by
      show (db.sessions ++ [_]).find? _ = _
      rw [find?_append_right _ _ _ h1]
      rw [List.find?_cons_of_pos _ (by simp [SESSION_EXPIRY_HOURS])]
    unfold _validate_session
    rw [pyGet_some hf]
    simp only [h2]
    simp [Ne.symm hmis]

/-- C5: a `tools/call` whose token lacks both the tool's declared scope and
`admin` fails with an `INVALID_REQUEST` JSON-RPC error whose message names
the required scope (and any JSON-RPC error response carries HTTP status
200, never a 500); with the required scope or `admin` present the external
tool collaborator is invoked and its outcome returned. -/
theorem tools_call_scope_gate
    (registry : List (String × Tool)) (params : RpcParams) (claims : TokenClaims)
    (nm : String) (pr : String × Tool)
    (hname : pyGet params.name = some nm)
    (hfind : registry.find? (fun p => p.1 == nm) = some pr) :
    ((pr.2.required_scope.getD "read" ∉ splitSpaces claims.scope ∧
        "admin" ∉ splitSpaces claims.scope) →
      _handle_tools_call registry params claims =
        .error ⟨INVALID_REQUEST,
          "Insufficient scope. Required: " ++ pr.2.required_scope.getD "read" ++
            ", has: " ++ pyListRepr (splitSpaces claims.scope)⟩ ∧
      (∃ pre post,
        "Insufficient scope. Required: " ++ pr.2.required_scope.getD "read" ++
            ", has: " ++ pyListRepr (splitSpaces claims.scope) =
          pre ++ pr.2.required_scope.getD "read" ++ post) ∧
      (∀ (i : Option RpcId) (e : McpErr), (_jsonrpc_error i e).statusCode = 200)) ∧
    ((pr.2.required_scope.getD "read" ∈ splitSpaces claims.scope ∨
        "admin" ∈ splitSpaces claims.scope) →
      _handle_tools_call registry params claims =
        match pr.2.run params.arguments claims.tenant_id claims.sub with
        | .ok r => .ok (.toolOut r)
        | .error e => .error ⟨INTERNAL_ERROR, "Tool execution failed: " ++ e⟩) := by
  constructor
  · rintro ⟨h1, h2⟩
    refine ⟨?_, ⟨"Insufficient scope. Required: ",
        ", has: " ++ pyListRepr (splitSpaces claims.scope), ?_⟩, fun i e => rfl⟩
    · unfold _handle_tools_call
      rw [hname]
      simp only [hfind]
      simp [h1, h2]
    · rw [String.append_assoc]
  · intro hor
    unfold _handle_tools_call
    rw [hname]
    simp only [hfind]
    have hc : (!((splitSpaces claims.scope).contains (pr.2.required_scope.getD "read")) &&
        !((splitSpaces claims.scope).contains "admin")) = false := by
      rcases hor with h | h <;> simp [h]
    simp only [hc]
    simp

/-- Witness for C5: `publish_file` requires `write`; a `read`-only token is
refused with an error naming `write`, a `write` token reaches the
collaborator (end-to-end scenario 4). -/
theorem tools_call_scope_gate_witness :
    pyGet wParamsPub.name = some "publish_file" ∧
    wRegistry.find? (fun p => p.1 == "publish_file") = some wPub ∧
    (wPub.2.required_scope.getD "read" ∉ splitSpaces wClaimsRead.scope ∧
      "admin" ∉ splitSpaces wClaimsRead.scope) ∧
    (_handle_tools_call wRegistry wParamsPub wClaimsRead =
        .error ⟨INVALID_REQUEST,
          "Insufficient scope. Required: " ++ wPub.2.required_scope.getD "read" ++
            ", has: " ++ pyListRepr (splitSpaces wClaimsRead.scope)⟩ ∧
      (∃ pre post,
        "Insufficient scope. Required: " ++ wPub.2.required_scope.getD "read" ++
            ", has: " ++ pyListRepr (splitSpaces wClaimsRead.scope) =
          pre ++ wPub.2.required_scope.getD "read" ++ post) ∧
      (∀ (i : Option RpcId) (e : McpErr), (_jsonrpc_error i e).statusCode = 200)) ∧
    (wPub.2.required_scope.getD "read" ∈ splitSpaces wClaimsWrite.scope ∨
      "admin" ∈ splitSpaces wClaimsWrite.scope) ∧
    _handle_tools_call wRegistry wParamsPub wClaimsWrite =
      match wPub.2.run wParamsPub.arguments wClaimsWrite.tenant_id wClaimsWrite.sub with
      | .ok r => .ok (.toolOut r)
      | .error e => .error ⟨INTERNAL_ERROR, "Tool execution failed: " ++ e⟩ :=
  ⟨rfl, rfl, ⟨by decide, by decide⟩,
   (tools_call_scope_gate wRegistry wParamsPub wClaimsRead "publish_file" wPub
      rfl rfl).1 ⟨by decide, by decide⟩,
   Or.inl (by decide),
   (tools_call_scope_gate wRegistry wParamsPub wClaimsWrite "publish_file" wPub
      rfl rfl).2 (Or.inl (by decide))⟩

/-- C6 (amended): every method other than `initialize` and
`notifications/cancelled` — including `notifications/initialized` — is
rejected with `NotInitialized` when no session id is presented and with
`InvalidSession` when the presented session is absent or expired;
`notifications/cancelled` returns an empty success with any session state,
and `initialize` succeeds without a session. -/
theorem method_session_gating :
    (∀ (registry : List (String × Tool)) (db : McpDb) (now : Nat) (fresh : String)
       (req : RpcRequest) (claims : TokenClaims),
      req.method ≠ "initialize" → req.method ≠ "notifications/cancelled" →
      _handle_method registry db now fresh req none claims =
        (.error ⟨MCP_NOT_INITIALIZED, "Session not initialized. Call initialize first."⟩, db)) ∧
    (∀ (registry : List (String × Tool)) (db : McpDb) (now : Nat) (fresh : String)
       (req : RpcRequest) (sid : String) (claims : TokenClaims),
      req.method ≠ "initialize" → req.method ≠ "notifications/cancelled" → sid ≠ "" →
      db.sessions.find? (fun s => s.session_id == sid && decide (now < s.expires_at)) = none →
      _handle_method registry db now fresh req (some sid) claims =
        (.error ⟨MCP_INVALID_SESSION, "Invalid or expired session"⟩, db)) ∧
    (∀ (registry : List (String × Tool)) (db : McpDb) (now : Nat) (fresh : String)
       (req : RpcRequest) (sid : Option String) (claims : TokenClaims),
      req.method = "notifications/cancelled" →
      _handle_method registry db now fresh req sid claims = (.ok (.emptyObj, none), db)) ∧
    (∀ (registry : List (String × Tool)) (db : McpDb) (now : Nat) (fresh : String)
       (req : RpcRequest) (claims : TokenClaims),
      req.method = "initialize" →
      _handle_method registry db now fresh req none claims =
        (.ok (.initResult, some fresh), (_handle_init_method db now fresh req.params claims).2)) := by
  refine ⟨?_, ?_, ?_, ?_⟩
  · intro registry db now fresh req claims h1 h2
    unfold _handle_method
    rw [if_neg h1]
    by_cases h3 : req.method = "notifications/initialized"
    · rw [if_pos h3]
      rfl
    · rw [if_neg h3, if_neg h2]
      rfl
  · intro registry db now fresh req sid claims h1 h2 hsid hfind
    have hval : _validate_session db now (some sid) claims =
        .error ⟨MCP_INVALID_SESSION, "Invalid or expired session"⟩ := by
      unfold _validate_session
      rw [pyGet_some hsid]
      simp only [hfind]
    unfold _handle_method
    rw [if_neg h1]
    by_cases h3 : req.method = "notifications/initialized"
    · rw [if_pos h3, hval]
    · rw [if_neg h3, if_neg h2, hval]
  · intro registry db now fresh req sid claims h
    have h1 : req.method ≠ "initialize" := by rw [h]; decide
    have h3 : req.method ≠ "notifications/initialized" := by rw [h]; decide
    unfold _handle_method
    rw [if_neg h1, if_neg h3, if_pos h]
  · intro registry db now fresh req claims h
    unfold _handle_method
    rw [if_pos h]
    rfl

/-- Counterexample to C6 as stated: `notifications/initialized` presented
with no session does not return an empty success — it is rejected with
`NotInitialized`, because the dispatcher validates the session for this
notification. -/
theorem notifications_initialized_gating_cex :
    _handle_method [] wMcpDb 0 "sX" wReqNotifInit none wClaimsA =
      (.error ⟨MCP_NOT_INITIALIZED, "Session not initialized. Call initialize first."⟩, wMcpDb) ∧
    _handle_method [] wMcpDb 0 "sX" wReqNotifInit none wClaimsA ≠
      (.ok (.emptyObj, none), wMcpDb) := by
  have h0 : _handle_method [] wMcpDb 0 "sX" wReqNotifInit none wClaimsA =
      (.error ⟨MCP_NOT_INITIALIZED, "Session not initialized. Call initialize first."⟩, wMcpDb) := rfl
  refine ⟨h0, ?_⟩
  rw [h0]
  intro h
  exact Except.noConfusion (congrArg Prod.fst h)

/-- Witness for C6 at concrete requests: `ping` without a session, `ping`
with an unknown session id, `notifications/cancelled` without a session,
and `initialize` without a session. -/
theorem method_session_gating_witness :
    (wReqPing.method ≠ "initialize" ∧ wReqPing.method ≠ "notifications/cancelled") ∧
    _handle_method [] wMcpDb 9 "sX" wReqPing none wClaimsA =
      (.error ⟨MCP_NOT_INITIALIZED, "Session not initialized. Call initialize first."⟩, wMcpDb) ∧
    (("nope" : String) ≠ "" ∧
      wMcpDb.sessions.find? (fun s => s.session_id == "nope" && decide (9 < s.expires_at)) = none) ∧
    _handle_method [] wMcpDb 9 "sX" wReqPing (some "nope") wClaimsA =
      (.error ⟨MCP_INVALID_SESSION, "Invalid or expired session"⟩, wMcpDb) ∧
    _handle_method [] wMcpDb 9 "sX" wReqNotifCancel none wClaimsA =
      (.ok (.emptyObj, none), wMcpDb) ∧
    _handle_method [] wMcpDb 9 "sX" wReqInit none wClaimsA =
      (.ok (.initResult, some "sX"), (_handle_init_method wMcpDb 9 "sX" wReqInit.params wClaimsA).2) :=
  ⟨⟨by decide, by decide⟩,
   method_session_gating.1 [] wMcpDb 9 "sX" wReqPing wClaimsA (by decide) (by decide),
   ⟨by decide, rfl⟩,
   method_session_gating.2.1 [] wMcpDb 9 "sX" wReqPing "nope" wClaimsA
     (by decide) (by decide) (by decide) rfl,
   method_session_gating.2.2.1 [] wMcpDb 9 "sX" wReqNotifCancel none wClaimsA (by decide),
   method_session_gating.2.2.2 [] wMcpDb 9 "sX" wReqInit wClaimsA (by decide)⟩

/-- Witness for C4: a session created for user A rejected with user B's
token. -/
theorem session_user_binding_witness :
    ("sess1" : String) ≠ "" ∧
    (∀ r ∈ wMcpDb.sessions, r.session_id ≠ "sess1") ∧
    wClaimsB.sub ≠ wClaimsA.sub ∧
    _validate_session (_handle_init_method wMcpDb 100 "sess1" {} wClaimsA).2
      100 (some "sess1") wClaimsB =
      .error ⟨MCP_INVALID_SESSION, "Session does not belong to this user"⟩ :=
  ⟨by decide, fun r hr => absurd hr (by simp [wMcpDb]), by decide,
   session_user_binding.2 wMcpDb 100 "sess1" {} wClaimsA wClaimsB (by decide)
     (fun r hr => absurd hr (by simp [wMcpDb])) (by decide)⟩

/-- C1: exchanging a valid, unexpired, unused authorization code issues an
access token and a refresh token scoped to the code's stored scope and
marks the code used; a second exchange of the same code fails
`invalid_grant` without touching the store; and the first exchange's
tokens remain valid — the access token verifies and the refresh token
still resolves — after the failed second attempt. -/
theorem authorization_code_single_use
    (db : OAuthDb) (now : Nat) (fresh1 fresh2 c v cid : String)
    (secret : Option String) (r : AuthCodeRecord) (u : UserRecord)
    (hc : c ≠ "") (hv : v ≠ "")
    (hfind : db.authCodes.find? (fun x => x.code == c) = some r)
    (hunused : r.used_at = none)
    (hexp : ¬ r.expires_at < now)
    (hcid : r.client_id = cid)
    (hpkce : verify_code_challenge v r.code_challenge r.code_challenge_method = .ok true)
    (hgate : clientSecretGate db cid secret = true)
    (huser : get_user db r.user_id = some u)
    (hfresh : ∀ x ∈ db.refreshTokens, x.token_hash ≠ sha256hex fresh1) :
    _handle_authorization_code_grant db now fresh1 (some c) none (some v) cid secret =
      (.tok (create_access_token u.id u.tenant_id (splitSpaces r.scope) cid now) "Bearer"
        (access_token_expire_minutes * 60) fresh1 r.scope,
       { db with
         authCodes := db.authCodes.map (fun x =>
           if x.code == c then { x with used_at := some now } else x),
         refreshTokens := db.refreshTokens ++
           [{ token_hash := sha256hex fresh1, client_id := cid, user_id := u.id,
              scope := joinSpaces (splitSpaces r.scope),
              expires_at := now + refresh_token_expire_days * 86400,
              revoked_at := none }] }) ∧
    (∀ x ∈ (_handle_authorization_code_grant db now fresh1 (some c) none (some v) cid secret).2.authCodes,
      x.code = c → x.used_at = some now) ∧
    _handle_authorization_code_grant
        (_handle_authorization_code_grant db now fresh1 (some c) none (some v) cid secret).2
        now fresh2 (some c) none (some v) cid secret =
      (.err 400 "invalid_grant" "Authorization code has already been used",
       (_handle_authorization_code_grant db now fresh1 (some c) none (some v) cid secret).2) ∧
    verify_token (create_access_token u.id u.tenant_id (splitSpaces r.scope) cid now) now =
      .ok (create_access_token u.id u.tenant_id (splitSpaces r.scope) cid now) ∧
    (verify_refresh_token
      (_handle_authorization_code_grant db now fresh1 (some c) none (some v) cid secret).2
      now fresh1).isSome = true := by
  have hures : u.id = r.user_id := by
    have := List.find?_some huser
    simpa using this
  have hres : _handle_authorization_code_grant db now fresh1 (some c) none (some v) cid secret =
      (.tok (create_access_token u.id u.tenant_id (splitSpaces r.scope) cid now) "Bearer"
        (access_token_expire_minutes * 60) fresh1 r.scope,
       { db with
         authCodes := db.authCodes.map (fun x =>
           if x.code == c then { x with used_at := some now } else x),
         refreshTokens := db.refreshTokens ++
           [{ token_hash := sha256hex fresh1, client_id := cid, user_id := u.id,
              scope := joinSpaces (splitSpaces r.scope),
              expires_at := now + refresh_token_expire_days * 86400,
              revoked_at := none }] }) := by
    unfold _handle_authorization_code_grant
    rw [pyGet_some hc, pyGet_some hv]
    simp only [hfind]
    rw [if_neg hexp]
    simp only [hunused, Option.isSome_none, Bool.false_eq_true, if_false]
    rw [if_neg (not_not_intro hcid)]
    simp only [pyGet, hpkce, hgate, Bool.not_true, Bool.false_eq_true, if_false]
    simp only [get_user] at huser
    simp only [get_user, huser]
    simp [create_refresh_token]
  have hmark : ∀ x ∈ (_handle_authorization_code_grant db now fresh1 (some c) none (some v) cid secret).2.authCodes,
      x.code = c → x.used_at = some now := by
    rw [hres]
    intro x hx hxc
    obtain ⟨y, hy, rfl⟩ := List.mem_map.mp hx
    by_cases hyc : (y.code == c) = true
    · rw [if_pos hyc]
    · rw [if_neg hyc] at hxc ⊢
      exact absurd hxc (by simpa using hyc)
  have hsecond : ∀ (dbX : OAuthDb) (rX : AuthCodeRecord),
      dbX.authCodes.find? (fun x => x.code == c) = some rX →
      rX.used_at.isSome = true → ¬ rX.expires_at < now →
      _handle_authorization_code_grant dbX now fresh2 (some c) none (some v) cid secret =
        (.err 400 "invalid_grant" "Authorization code has already been used", dbX) := by
    intro dbX rX hf hu he
    unfold _handle_authorization_code_grant
    rw [pyGet_some hc, pyGet_some hv]
    simp only [hf]
    rw [if_neg he]
    simp only [hu, if_true]
  have hfind2 : (_handle_authorization_code_grant db now fresh1 (some c) none (some v) cid secret).2.authCodes.find?
      (fun x => x.code == c) = some { r with used_at := some now } := by
    rw [hres]
    show (db.authCodes.map _).find? _ = _
    rw [find?_mark_used, hfind]
    rfl
  refine ⟨hres, hmark, ?_, ?_, ?_⟩
  · exact hsecond _ { r with used_at := some now } hfind2 rfl hexp
  · unfold verify_token
    rw [if_neg ?_]
    · rw [if_neg ?_]
      simp [create_access_token]
    · exact fun hx => by simp [create_access_token] at hx
  · rw [hres]
    have hleft : db.refreshTokens.find? (fun x =>
        x.token_hash == sha256hex fresh1 && decide (now < x.expires_at) &&
          x.revoked_at.isNone) = none := by
      rw [List.find?_eq_none]
      intro x hx hpx
      rw [Bool.and_eq_true, Bool.and_eq_true] at hpx
      exact hfresh x hx (by simpa using hpx.1.1)
    unfold verify_refresh_token
    show (Option.isSome (match ((db.refreshTokens ++ _).find? _ : Option RefreshRecord) with
      | none => _ | some rr => _) = true)
    rw [find?_append_right _ _ _ hleft]
    rw [List.find?_cons_of_pos _ ?_]
    · simp only
      rw [hures]
      simp only [get_user] at huser
      simp only [huser]
      rfl
    · simp [refresh_token_expire_days]

set_option maxRecDepth 40000 in
/-- Witness for C1: a one-code store; the first exchange succeeds, the
second fails `invalid_grant`, and the issued tokens stay valid. -/
theorem authorization_code_single_use_witness :
    ("code1" : String) ≠ "" ∧
    verify_code_challenge "ver" "ver" "plain" = .ok true ∧
    _handle_authorization_code_grant
        (_handle_authorization_code_grant
          { users := [wUser], clients := [], authCodes :=
              [{ code := "code1", client_id := "cl1", user_id := "u1",
                 redirect_uri := "https://app.example/cb", scope := "write",
                 code_challenge := "ver", code_challenge_method := "plain",
                 expires_at := 100, used_at := none }],
            refreshTokens := [] }
          5 "rt1" (some "code1") none (some "ver") "cl1" none).2
        5 "rt2" (some "code1") none (some "ver") "cl1" none =
      (.err 400 "invalid_grant" "Authorization code has already been used",
       (_handle_authorization_code_grant
          { users := [wUser], clients := [], authCodes :=
              [{ code := "code1", client_id := "cl1", user_id := "u1",
                 redirect_uri := "https://app.example/cb", scope := "write",
                 code_challenge := "ver", code_challenge_method := "plain",
                 expires_at := 100, used_at := none }],
            refreshTokens := [] }
          5 "rt1" (some "code1") none (some "ver") "cl1" none).2) ∧
    (verify_refresh_token
      (_handle_authorization_code_grant
          { users := [wUser], clients := [], authCodes :=
              [{ code := "code1", client_id := "cl1", user_id := "u1",
                 redirect_uri := "https://app.example/cb", scope := "write",
                 code_challenge := "ver", code_challenge_method := "plain",
                 expires_at := 100, used_at := none }],
            refreshTokens := [] }
          5 "rt1" (some "code1") none (some "ver") "cl1" none).2
      5 "rt1").isSome = true := by
  have main := authorization_code_single_use
    { users := [wUser], clients := [], authCodes :=
        [{ code := "code1", client_id := "cl1", user_id := "u1",
           redirect_uri := "https://app.example/cb", scope := "write",
           code_challenge := "ver", code_challenge_method := "plain",
           expires_at := 100, used_at := none }],
      refreshTokens := [] }
    5 "rt1" "rt2" "code1" "ver" "cl1" none
    { code := "code1", client_id := "cl1", user_id := "u1",
      redirect_uri := "https://app.example/cb", scope := "write",
      code_challenge := "ver", code_challenge_method := "plain",
      expires_at := 100, used_at := none }
    wUser
    (by decide) (by decide) rfl rfl (by decide) rfl rfl rfl rfl
    (fun x hx => absurd hx (by simp))
  exact ⟨by decide, rfl, main.2.2.1, main.2.2.2.2⟩

/-- C2: a successful refresh-grant exchange revokes the presented token
(every stored row carrying its hash is marked revoked) and issues a fresh
pair; the same token presented a second time fails `invalid_grant`; and
any token all of whose rows are revoked or expired — in particular an
unknown one — is rejected with `invalid_grant`. -/
theorem refresh_rotation
    (db : OAuthDb) (now : Nat) (fresh1 fresh2 tok cid : String)
    (secret : Option String) (d : RefreshData)
    (htok : tok ≠ "")
    (hverify : verify_refresh_token db now tok = some d)
    (hcid : d.client_id = cid)
    (hgate : clientSecretGate db cid secret = true)
    (hfresh : sha256hex fresh1 ≠ sha256hex tok) :
    _handle_refresh_token_grant db now fresh1 (some tok) cid secret =
      (.tok (create_access_token d.user_id d.tenant_id d.scopes cid now) "Bearer"
        (access_token_expire_minutes * 60) fresh1 (joinSpaces d.scopes),
       { revoke_refresh_token db now tok with
         refreshTokens := (revoke_refresh_token db now tok).refreshTokens ++
           [{ token_hash := sha256hex fresh1, client_id := cid, user_id := d.user_id,
              scope := joinSpaces d.scopes,
              expires_at := now + refresh_token_expire_days * 86400,
              revoked_at := none }] }) ∧
    (∀ r ∈ (_handle_refresh_token_grant db now fresh1 (some tok) cid secret).2.refreshTokens,
      r.token_hash = sha256hex tok → r.revoked_at = some now) ∧
    verify_refresh_token (_handle_refresh_token_grant db now fresh1 (some tok) cid secret).2
      now tok = none ∧
    _handle_refresh_token_grant
        (_handle_refresh_token_grant db now fresh1 (some tok) cid secret).2
        now fresh2 (some tok) cid secret =
      (.err 400 "invalid_grant" "Invalid or expired refresh token",
       (_handle_refresh_token_grant db now fresh1 (some tok) cid secret).2) ∧
    (∀ (db2 : OAuthDb) (tok2 cid2 f2 : String) (s2 : Option String),
      tok2 ≠ "" →
      (∀ r ∈ db2.refreshTokens, r.token_hash = sha256hex tok2 →
        (r.revoked_at ≠ none ∨ ¬ now < r.expires_at)) →
      _handle_refresh_token_grant db2 now f2 (some tok2) cid2 s2 =
        (.err 400 "invalid_grant" "Invalid or expired refresh token", db2)) := by
  have hne : ¬ (d.client_id ≠ cid) := fun hne => hne hcid
  have hres : _handle_refresh_token_grant db now fresh1 (some tok) cid secret =
      (.tok (create_access_token d.user_id d.tenant_id d.scopes cid now) "Bearer"
        (access_token_expire_minutes * 60) fresh1 (joinSpaces d.scopes),
       { revoke_refresh_token db now tok with
         refreshTokens := (revoke_refresh_token db now tok).refreshTokens ++
           [{ token_hash := sha256hex fresh1, client_id := cid, user_id := d.user_id,
              scope := joinSpaces d.scopes,
              expires_at := now + refresh_token_expire_days * 86400,
              revoked_at := none }] }) := by
    unfold _handle_refresh_token_grant
    rw [pyGet_some htok]
    simp only [hverify, hgate]
    rw [if_neg hne]
    simp [create_refresh_token, revoke_refresh_token]
  have hrevall : ∀ r ∈ (_handle_refresh_token_grant db now fresh1 (some tok) cid secret).2.refreshTokens,
      r.token_hash = sha256hex tok → r.revoked_at = some now := by
    rw [hres]
    intro r hr hhash
    rcases List.mem_append.mp hr with hr1 | hr2
    · simp only [revoke_refresh_token] at hr1
      obtain ⟨y, hy, rfl⟩ := List.mem_map.mp hr1
      by_cases hyh : (y.token_hash == sha256hex tok) = true
      · rw [if_pos hyh]
      · rw [if_neg hyh] at hhash ⊢
        exact absurd hhash (by simpa using hyh)
    · have : r = { token_hash := sha256hex fresh1, client_id := cid,
                   user_id := d.user_id, scope := joinSpaces d.scopes,
                   expires_at := now + refresh_token_expire_days * 86400,
                   revoked_at := none } := by simpa using hr2
      rw [this] at hhash
      exact absurd hhash hfresh
  have hver2 : verify_refresh_token
      (_handle_refresh_token_grant db now fresh1 (some tok) cid secret).2 now tok = none := by
    rw [hres]
    have hfind : ((revoke_refresh_token db now tok).refreshTokens ++
        [({ token_hash := sha256hex fresh1, client_id := cid, user_id := d.user_id,
            scope := joinSpaces d.scopes,
            expires_at := now + refresh_token_expire_days * 86400,
            revoked_at := none } : RefreshRecord)]).find? (fun r =>
          r.token_hash == sha256hex tok && decide (now < r.expires_at) &&
            r.revoked_at.isNone) = none := by
      rw [List.find?_eq_none]
      intro x hx
      rcases List.mem_append.mp hx with hx1 | hx2
      · simp only [revoke_refresh_token] at hx1
        obtain ⟨y, hy, rfl⟩ := List.mem_map.mp hx1
        by_cases hyh : (y.token_hash == sha256hex tok) = true
        · rw [if_pos hyh]
          simp
        · rw [if_neg hyh]
          simp [hyh]
      · have hx2' : x = { token_hash := sha256hex fresh1, client_id := cid,
                          user_id := d.user_id, scope := joinSpaces d.scopes,
                          expires_at := now + refresh_token_expire_days * 86400,
                          revoked_at := none } := by simpa using hx2
        rw [hx2']
        simp [beq_eq_false_iff_ne.mpr hfresh]
    unfold verify_refresh_token
    simp only [hfind]
  have hreject : ∀ (db2 : OAuthDb) (tok2 cid2 f2 : String) (s2 : Option String),
      tok2 ≠ "" →
      (∀ r ∈ db2.refreshTokens, r.token_hash = sha256hex tok2 →
        (r.revoked_at ≠ none ∨ ¬ now < r.expires_at)) →
      _handle_refresh_token_grant db2 now f2 (some tok2) cid2 s2 =
        (.err 400 "invalid_grant" "Invalid or expired refresh token", db2) := by
    intro db2 tok2 cid2 f2 s2 htok2 hall
    have hfind : db2.refreshTokens.find? (fun r =>
        r.token_hash == sha256hex tok2 && decide (now < r.expires_at) &&
          r.revoked_at.isNone) = none := by
      rw [List.find?_eq_none]
      intro x hx hpx
      rw [Bool.and_eq_true, Bool.and_eq_true] at hpx
      have hh : x.token_hash = sha256hex tok2 := by simpa using hpx.1.1
      rcases hall x hx hh with hrv | hexp
      · rcases hx' : x.revoked_at with _ | v
        · exact hrv hx'
        · rw [hx'] at hpx
          simpa using hpx.2
      · exact hexp (by simpa using hpx.1.2)
    have hver : verify_refresh_token db2 now tok2 = none := by
      unfold verify_refresh_token
      simp only [hfind]
    unfold _handle_refresh_token_grant
    rw [pyGet_some htok2]
    simp only [hver]
  refine ⟨hres, hrevall, hver2, ?_, hreject⟩
  exact hreject _ tok cid fresh2 secret htok
    (fun r hr hh => Or.inl (by rw [hrevall r hr hh]; simp))

set_option maxRecDepth 40000 in
/-- Witness for C2: a live refresh token in a one-row store is rotated by
the first use and rejected on the second. -/
theorem refresh_rotation_witness :
    ("tok1" : String) ≠ "" ∧
    verify_refresh_token
      { users := [wUser], clients := [], authCodes := [],
        refreshTokens := [{ token_hash := sha256hex "tok1", client_id := "cl1",
                            user_id := "u1", scope := "write", expires_at := 100,
                            revoked_at := none }] }
      5 "tok1" =
      some { user_id := "u1", tenant_id := "t1", scopes := ["write"], client_id := "cl1" } ∧
    sha256hex "rt1" ≠ sha256hex "tok1" ∧
    verify_refresh_token
      (_handle_refresh_token_grant
        { users := [wUser], clients := [], authCodes := [],
          refreshTokens := [{ token_hash := sha256hex "tok1", client_id := "cl1",
                              user_id := "u1", scope := "write", expires_at := 100,
                              revoked_at := none }] }
        5 "rt1" (some "tok1") "cl1" none).2 5 "tok1" = none ∧
    _handle_refresh_token_grant
      (_handle_refresh_token_grant
        { users := [wUser], clients := [], authCodes := [],
          refreshTokens := [{ token_hash := sha256hex "tok1", client_id := "cl1",
                              user_id := "u1", scope := "write", expires_at := 100,
                              revoked_at := none }] }
        5 "rt1" (some "tok1") "cl1" none).2
      5 "rt2" (some "tok1") "cl1" none =
      (.err 400 "invalid_grant" "Invalid or expired refresh token",
       (_handle_refresh_token_grant
        { users := [wUser], clients := [], authCodes := [],
          refreshTokens := [{ token_hash := sha256hex "tok1", client_id := "cl1",
                              user_id := "u1", scope := "write", expires_at := 100,
                              revoked_at := none }] }
        5 "rt1" (some "tok1") "cl1" none).2) := by
  set db0 : OAuthDb :=
    { users := [wUser], clients := [], authCodes := [],
      refreshTokens := [{ token_hash := sha256hex "tok1", client_id := "cl1",
                          user_id := "u1", scope := "write", expires_at := 100,
                          revoked_at := none }] } with hdb0
  have h1 : ("tok1" : String) ≠ "" := by decide
  have h2 : verify_refresh_token db0 5 "tok1" =
      some { user_id := "u1", tenant_id := "t1", scopes := ["write"], client_id := "cl1" } := by
    rfl
  have h3 : sha256hex "rt1" ≠ sha256hex "tok1" := by decide
  have main := refresh_rotation db0 5 "rt1" "rt2" "tok1" "cl1" none
    { user_id := "u1", tenant_id := "t1", scopes := ["write"], client_id := "cl1" }
    h1 h2 rfl rfl h3
  exact ⟨h1, h2, h3, main.2.2.1, main.2.2.2.1⟩

/-- C8 (amended): `generate_code_verifier` called on `length` random bytes
returns a URL-safe string (every character from the base64url alphabet) of
length `min ((4*length+2)/3) 128`; this lies within the RFC 7636 bounds
43..128 whenever `length ≥ 32` (in particular for the default of 64
bytes), but the function never enforces the lower bound itself. -/
theorem generate_code_verifier_bounds (bytes : List Nat) :
    (generate_code_verifier bytes).length = min ((4 * bytes.length + 2) / 3) 128 ∧
    (∀ ch ∈ (generate_code_verifier bytes).data, ch ∈ b64Alphabet) ∧
    (32 ≤ bytes.length →
      43 ≤ (generate_code_verifier bytes).length ∧
      (generate_code_verifier bytes).length ≤ 128) := by
  obtain ⟨body, pads, henc, hlen, hmem, hpad⟩ := b64urlEncode_decomp bytes
  have hstrip : rstripEq (b64urlEncode bytes) = body := by
    rw [henc]
    exact rstripEq_body_pads body pads hmem hpad
  have hdata : (generate_code_verifier bytes).data = body.take 128 := by
    unfold generate_code_verifier
    rw [hstrip]
  have hlen' : (generate_code_verifier bytes).length = min 128 ((4 * bytes.length + 2) / 3) := by
    show (generate_code_verifier bytes).data.length = _
    rw [hdata, List.length_take, hlen]
  refine ⟨?_, ?_, ?_⟩
  · rw [hlen']
    omega
  · intro ch hch
    rw [hdata] at hch
    exact hmem ch (List.take_subset _ _ hch)
  · intro h32
    rw [hlen']
    omega

/-- Counterexample to C8 as stated: with a length argument of 1 the
verifier is the 2-character string "AA", far below the 43-character RFC
lower bound; the source clamps only the upper bound. -/
theorem generate_code_verifier_short_cex :
    (generate_code_verifier [0]).length = 2 ∧
    ¬ (43 ≤ (generate_code_verifier [0]).length ∧
        (generate_code_verifier [0]).length ≤ 128) := by
  decide

/-- Witness for C8 at 32 input bytes: the verifier length is within the
RFC bounds. -/
theorem generate_code_verifier_bounds_witness :
    32 ≤ (List.replicate 32 0).length ∧
    (43 ≤ (generate_code_verifier (List.replicate 32 0)).length ∧
      (generate_code_verifier (List.replicate 32 0)).length ≤ 128) :=
  ⟨by decide, (generate_code_verifier_bounds (List.replicate 32 0)).2.2 (by decide)⟩

/-- C9 (amended): `AuroraClient.execute` re-raises a store `ClientError`
unchanged; translation of a unique-key violation into a domain-level 409
Conflict happens only in the admin handlers (matching "duplicate key" in
the exception text); in the OAuth signup path duplicates are avoided by a
pre-insert check raising `ValueError` (mapped to a 400 `invalid_request`),
and an actual constraint violation at the store surfaces as a generic 500
`server_error`, not a Conflict. -/
theorem conflict_translation_sites :
    (∀ m : String, aurora_execute (.error m) = .error (.clientErr m)) ∧
    (∀ (m : String) (uIns : Except String (List Row)),
      strContains (strLower m) "duplicate key" = true →
      admin_create_tenant (.error m) uIns =
        .resp 409 "Tenant with this slug or email already exists") ∧
    (∀ (tenants : List TenantRow) (name email slug m : String),
      name ≠ "" → email ≠ "" →
      tenants.find? (fun t => t.slug == slug) = none →
      handle_signup_tenant tenants (.error m) name email slug = (500, "server_error")) ∧
    (∀ (tenants : List TenantRow) (name email slug : String)
       (reply : Except String TenantRow) (t : TenantRow),
      name ≠ "" → email ≠ "" →
      tenants.find? (fun x => x.slug == slug) = some t →
      handle_signup_tenant tenants reply name email slug = (400, "invalid_request")) := by
  refine ⟨fun m => rfl, ?_, ?_, ?_⟩
  · intro m uIns h
    simp [admin_create_tenant, aurora_execute, pyExcStr, h]
  · intro tenants name email slug m hname hemail hfind
    simp [handle_signup_tenant, create_tenant, oauth_handler_wrap, hname, hemail,
      hfind, Except.map]
  · intro tenants name email slug reply t hname hemail hfind
    simp [handle_signup_tenant, create_tenant, oauth_handler_wrap, hname, hemail,
      hfind, Except.map]

/-- Counterexample to C9 as stated: a store write that violates a unique
key in the OAuth signup path surfaces as a raw `ClientError` from
`AuroraClient.execute` and a generic 500 `server_error` response, not a
domain-level Conflict (the 409 the admin handlers produce). -/
theorem conflict_raw_propagation_cex :
    aurora_execute (.error "duplicate key value violates unique constraint") =
      .error (.clientErr "duplicate key value violates unique constraint") ∧
    handle_signup_tenant [] (.error "duplicate key value violates unique constraint")
      "Acme" "a@b.io" "acme-1a2b" = (500, "server_error") ∧
    handle_signup_tenant [] (.error "duplicate key value violates unique constraint")
      "Acme" "a@b.io" "acme-1a2b" ≠
      (409, "Tenant with this slug or email already exists") :=
  ⟨rfl, rfl, by decide⟩

/-- Witness for C9 at concrete inputs: an admin insert failing with a
"duplicate key" error is translated to 409, while the same failure in the
OAuth signup path yields 500, and a duplicate slug caught by the pre-check
yields 400. -/
theorem conflict_translation_sites_witness :
    aurora_execute (.error "boom") = .error (.clientErr "boom") ∧
    strContains (strLower "Duplicate KEY value violates unique constraint") "duplicate key" = true ∧
    admin_create_tenant (.error "Duplicate KEY value violates unique constraint") (.ok []) =
      .resp 409 "Tenant with this slug or email already exists" ∧
    handle_signup_tenant [] (.error "duplicate key value") "Acme" "a@b.io" "acme-9z" =
      (500, "server_error") ∧
    handle_signup_tenant [⟨"t1", "Acme", "acme-9z", "x@y.z"⟩]
      (.ok ⟨"t2", "Acme", "acme-9z", "a@b.io"⟩) "Acme" "a@b.io" "acme-9z" =
      (400, "invalid_request") :=
  ⟨conflict_translation_sites.1 "boom",
   by decide,
   conflict_translation_sites.2.1 "Duplicate KEY value violates unique constraint"
     (.ok []) (by decide),
   conflict_translation_sites.2.2.1 [] "Acme" "a@b.io" "acme-9z" "duplicate key value"
     (by decide) (by decide) rfl,
   conflict_translation_sites.2.2.2 [⟨"t1", "Acme", "acme-9z", "x@y.z"⟩]
     "Acme" "a@b.io" "acme-9z" (.ok ⟨"t2", "Acme", "acme-9z", "a@b.io"⟩)
     ⟨"t1", "Acme", "acme-9z", "x@y.z"⟩ (by decide) (by decide) rfl⟩

/-- C10 (amended): a missing authorization header or a failed bearer
verification yields a 401 with a `WWW-Authenticate` header pointing at the
protected-resource metadata URL; with a verified bearer token every
JSON-RPC error body — parse error, invalid request, and every dispatcher
`McpError` — is returned with HTTP status 200, and the only non-200 status
on that path is the 202 empty-body acknowledgement of a notification. -/
theorem http_status_surface :
    (∀ (registry : List (String × Tool)) (verifyTok : String → Except String TokenClaims)
       (issuer : String) (db : McpDb) (now : Nat) (fresh : String)
       (sid : Option String) (body : RawBody),
      _handle_post registry verifyTok issuer db now fresh none sid body =
        (_auth_error_response issuer "Missing Authorization header", db)) ∧
    (∀ (registry : List (String × Tool)) (verifyTok : String → Except String TokenClaims)
       (issuer : String) (db : McpDb) (now : Nat) (fresh : String)
       (h : String) (sid : Option String) (body : RawBody) (e : String),
      h ≠ "" → get_token_claims verifyTok h = .error e →
      _handle_post registry verifyTok issuer db now fresh (some h) sid body =
        (_auth_error_response issuer ("Invalid token: " ++ e), db)) ∧
    (∀ (i m : String), (_auth_error_response i m).statusCode = 401 ∧
      ("WWW-Authenticate",
        "Bearer resource_metadata=\"" ++ i ++ "/.well-known/oauth-protected-resource\"")
        ∈ (_auth_error_response i m).headers) ∧
    (∀ (registry : List (String × Tool)) (verifyTok : String → Except String TokenClaims)
       (issuer : String) (db : McpDb) (now : Nat) (fresh : String)
       (h : String) (sid : Option String) (body : RawBody) (claims : TokenClaims),
      h ≠ "" → get_token_claims verifyTok h = .ok claims →
      (∀ (i : Option RpcId) (code : Int) (msg : String),
        (_handle_post registry verifyTok issuer db now fresh (some h) sid body).1.body =
            .jsonrpcErr i code msg →
        (_handle_post registry verifyTok issuer db now fresh (some h) sid body).1.statusCode = 200) ∧
      ((_handle_post registry verifyTok issuer db now fresh (some h) sid body).1.statusCode ≠ 200 →
        (_handle_post registry verifyTok issuer db now fresh (some h) sid body).1.statusCode = 202 ∧
        (_handle_post registry verifyTok issuer db now fresh (some h) sid body).1.body = .empty)) := by
  refine ⟨fun _ _ _ _ _ _ _ _ => rfl, ?_, fun i m => ⟨rfl, ?_⟩, ?_⟩
  · intro registry verifyTok issuer db now fresh h sid body e hh htok
    unfold _handle_post
    rw [pyGet_some hh]
    simp only [htok]
  · exact List.mem_cons_of_mem _ (List.mem_cons_self _ _)
  · intro registry verifyTok issuer db now fresh h sid body claims hh htok
    unfold _handle_post
    rw [pyGet_some hh]
    simp only [htok]
    cases body with
    | badJson m =>
      exact ⟨fun i code msg _ => rfl, fun hne => absurd rfl hne⟩
    | parsed j meth i params =>
      simp only [_dispatch_rpc]
      cases hfd : jsonRpcRequestFromDict j meth i params with
      | error e =>
        exact ⟨fun i code msg _ => rfl, fun hne => absurd rfl hne⟩
      | ok req =>
        simp only [hfd]
        rcases hm : _handle_method registry db now fresh req sid claims with ⟨out, dbA⟩
        cases out with
        | error e =>
          exact ⟨fun i code msg _ => rfl, fun hne => absurd rfl hne⟩
        | ok rs =>
          rcases rs with ⟨result, newSid⟩
          cases hqid : req.id with
          | none =>
            exact ⟨fun i code msg hb => HttpBody.noConfusion hb, fun _ => ⟨rfl, rfl⟩⟩
          | some rid =>
            exact ⟨fun i code msg _ => rfl, fun hne => absurd rfl hne⟩

/-- Counterexample to C10 as stated: a successfully acknowledged
notification carries a valid bearer token yet returns HTTP 202, a non-200
status not caused by a missing or unverifiable token. -/
theorem notification_status_202_cex :
    get_token_claims wVerifyOk "Bearer tok" = .ok wClaimsA ∧
    (_handle_post [] wVerifyOk "https://x" wMcpDb 0 "s" (some "Bearer tok") none
        wBodyNotifCancel).1.statusCode = 202 ∧
    (202 : Nat) ≠ 200 :=
  ⟨rfl, rfl, by decide⟩

/-- Witness for C10 at concrete inputs: missing header, invalid token, the
401 response shape, and the valid-token status discipline. -/
theorem http_status_surface_witness :
    _handle_post [] wVerifyOk "https://x" wMcpDb 0 "s" none none wBodyNotifCancel =
      (_auth_error_response "https://x" "Missing Authorization header", wMcpDb) ∧
    (("Bearer tok" : String) ≠ "" ∧
      get_token_claims wVerifyBad "Bearer tok" = .error "Signature has expired") ∧
    _handle_post [] wVerifyBad "https://x" wMcpDb 0 "s" (some "Bearer tok") none
        wBodyNotifCancel =
      (_auth_error_response "https://x" ("Invalid token: " ++ "Signature has expired"), wMcpDb) ∧
    ((_auth_error_response "https://x" "nope").statusCode = 401 ∧
      ("WWW-Authenticate",
        "Bearer resource_metadata=\"" ++ "https://x" ++ "/.well-known/oauth-protected-resource\"")
        ∈ (_auth_error_response "https://x" "nope").headers) ∧
    ((∀ (i : Option RpcId) (code : Int) (msg : String),
        (_handle_post [] wVerifyOk "https://x" wMcpDb 0 "s" (some "Bearer tok") none
            wBodyNotifCancel).1.body = .jsonrpcErr i code msg →
        (_handle_post [] wVerifyOk "https://x" wMcpDb 0 "s" (some "Bearer tok") none
            wBodyNotifCancel).1.statusCode = 200) ∧
      ((_handle_post [] wVerifyOk "https://x" wMcpDb 0 "s" (some "Bearer tok") none
            wBodyNotifCancel).1.statusCode ≠ 200 →
        (_handle_post [] wVerifyOk "https://x" wMcpDb 0 "s" (some "Bearer tok") none
            wBodyNotifCancel).1.statusCode = 202 ∧
        (_handle_post [] wVerifyOk "https://x" wMcpDb 0 "s" (some "Bearer tok") none
            wBodyNotifCancel).1.body = .empty)) :=
  ⟨http_status_surface.1 [] wVerifyOk "https://x" wMcpDb 0 "s" none wBodyNotifCancel,
   ⟨by decide, rfl⟩,
   http_status_surface.2.1 [] wVerifyBad "https://x" wMcpDb 0 "s" "Bearer tok" none
     wBodyNotifCancel "Signature has expired" (by decide) rfl,
   http_status_surface.2.2.1 "https://x" "nope",
   http_status_surface.2.2.2 [] wVerifyOk "https://x" wMcpDb 0 "s" "Bearer tok" none
     wBodyNotifCancel wClaimsA (by decide) rfl⟩

end Herald
